import Mathlib

/-!
Verification development for the landing-page analysis and ICE-scoring
pipeline of the `ai-growth-backlog-generator` backend.

The Python sources embedded here are
`backend/app/models/ice_scoring.py` (class `ICEScorer`) and
`backend/app/services/growth_analyzer.py` (class `GrowthAnalyzer`).

Modelling conventions:
* Python floats are modelled as exact rationals (`ℚ`).  All arithmetic is
  expressed through executable wrappers (`pyAdd`, `pyMul`, ...) built on
  `Rat.divInt` so that concrete runs reduce inside the kernel; the wrappers
  are proved equal to the Mathlib field operations.
* Python `round(x, n)` (round-half-to-even at `n` decimal digits) is
  `roundPy n x`.
* Python strings are Lean `String`s; `a in b` (substring test) is
  `pyInB a b`, decided through list-infix decidability on `String.data`.
* Python dicts holding heterogeneous JSON-ish values are association lists
  `PyDict` over an inductive `Val`; `d.get(k, default)` is `pyGetD`.
* External effects (OCR, the two vision/LLM calls) are inputs of the run,
  collected in an `Env`; an exception of a call is an `Except.error`.
-/

set_option maxRecDepth 100000

/-- Integer as a rational, through the executable `Rat.divInt`. -/
def intQ (n : ℤ) : ℚ := Rat.divInt n 1

/-- Executable addition on `ℚ` (kernel-reducible mirror of `+`). -/
def pyAdd (a b : ℚ) : ℚ := Rat.divInt (a.num * (b.den : ℤ) + b.num * (a.den : ℤ)) ((a.den : ℤ) * (b.den : ℤ))

/-- Executable subtraction on `ℚ`. -/
def pySub (a b : ℚ) : ℚ := Rat.divInt (a.num * (b.den : ℤ) - b.num * (a.den : ℤ)) ((a.den : ℤ) * (b.den : ℤ))

/-- Executable multiplication on `ℚ`. -/
def pyMul (a b : ℚ) : ℚ := Rat.divInt (a.num * b.num) ((a.den : ℤ) * (b.den : ℤ))

/-- Executable division on `ℚ` (like Python `/` on the values reached here;
division by zero never happens on the guarded paths). -/
def pyDiv (a b : ℚ) : ℚ := Rat.divInt (a.num * (b.den : ℤ)) ((a.den : ℤ) * b.num)

/-- Python `min(a, b)`. -/
def pyMin (a b : ℚ) : ℚ := if a ≤ b then a else b

/-- Python `max(a, b)`. -/
def pyMax (a b : ℚ) : ℚ := if a < b then b else a

/-- Floor of a rational, executable (`den` is always positive). -/
def pyFloorZ (x : ℚ) : ℤ := Int.ediv x.num (x.den : ℤ)

/-- Round-half-to-even to an integer, as Python `round` does. -/
def roundHalfEven (x : ℚ) : ℤ :=
  let f : ℤ := pyFloorZ x
  let r : ℚ := pySub x (intQ f)
  if r < Rat.divInt 1 2 then f
  else if Rat.divInt 1 2 < r then f + 1
  else if f % 2 = 0 then f else f + 1

/-- Python `round(x, nd)` on exact decimal arithmetic. -/
def roundPy (nd : ℕ) (x : ℚ) : ℚ :=
  Rat.divInt (roundHalfEven (pyMul x (intQ ((10 : ℤ) ^ nd)))) ((10 : ℤ) ^ nd)

/-- Python `str.lower()` (the texts here are ASCII). -/
def strLower (s : String) : String := String.mk (s.data.map Char.toLower)

/-- Python substring test `needle in haystack`, as a Bool. -/
def pyInB (needle haystack : String) : Bool := decide (needle.data <:+: haystack.data)

/-- JSON-ish Python values stored in the dicts this pipeline builds. -/
inductive Val where
  | s (v : String)
  | q (v : ℚ)
  | b (v : Bool)
  | l (v : List Val)
  | d (v : List (String × Val))
  | none

/-- A Python dict with string keys, as an insertion-ordered association list. -/
abbrev PyDict := List (String × Val)

/-- Key lookup (`k in d` / `d[k]` style access). -/
def pyGet (m : PyDict) (k : String) : Option Val :=
  (m.find? (fun p => p.1 == k)).map (fun p => p.2)

/-- Python `d.get(k, default)`. -/
def pyGetD (m : PyDict) (k : String) (dflt : Val) : Val := (pyGet m k).getD dflt

/-- Python truthiness of a value. -/
def pyTruthy : Val → Bool
  | .s v => !(v == "")
  | .q v => !(decide (v = 0))
  | .b v => v
  | .l v => !v.isEmpty
  | .d v => !v.isEmpty
  | .none => false

/-- Python `v == t` for a dict value against a string literal
(non-strings simply compare unequal). -/
def eqStrV (v : Val) (t : String) : Bool :=
  match v with
  | .s u => u == t
  | _ => false

/-- Python `d.get(k, dflt)` where a number is expected (used only at keys
that are absent or hold numbers). -/
def getNumD (m : PyDict) (k : String) (dflt : ℚ) : ℚ :=
  match pyGet m k with
  | some (.q v) => v
  | _ => dflt

/-- Build a dict whose values are all strings (the shape of every
hand-authored idea template in `growth_analyzer.py`). -/
def sdict (l : List (String × String)) : PyDict := l.map (fun p => (p.1, Val.s p.2))

/-!  `ICEScorer` from `backend/app/models/ice_scoring.py`. -/

/-- The attribute dictionary consumed by `ICEScorer` (spec `ICEAttributes`).
`category`/`complexity` are `Option` because the scorer reads them with
dict-`get` defaults and the pipeline's `_get_ice_data` dict has no
`category` key at all. -/
structure IceData where
  category : Option String
  affects_value_proposition : Bool
  affects_cta : Bool
  affects_trust : Bool
  affects_social_proof : Bool
  has_case_studies : Bool
  case_study_count : ℚ
  follows_best_practices : Bool
  industry_standard : Bool
  reasoning_strength : ℚ
  complexity : Option String
  dev_time_days : ℚ
  requires_design : Bool
  requires_copywriting : Bool
  requires_ab_testing : Bool
  requires_user_research : Bool

/-- Embeds `category_weights.get(category, 1.0)` in `ICEScorer.calculate_impact`. -/
def category_weights (c : String) : ℚ :=
  if c = "copy" then Rat.divInt 12 10
  else if c = "design" then Rat.divInt 11 10
  else if c = "ux" then Rat.divInt 13 10
  else if c = "technical" then Rat.divInt 9 10
  else if c = "layout" then 1
  else 1

/-- Embeds `ICEScorer.calculate_impact` (ice_scoring.py lines 37-72). -/
def calculate_impact (d : IceData) : ℚ :=
  let base := pyMul 5 (category_weights (d.category.getD "layout"))
  let base := if d.affects_value_proposition then pyAdd base 2 else base
  let base := if d.affects_cta then pyAdd base (Rat.divInt 3 2) else base
  let base := if d.affects_trust then pyAdd base 1 else base
  let base := if d.affects_social_proof then pyAdd base 1 else base
  pyMin 10 (pyMax 1 base)

/-- Embeds `ICEScorer.calculate_confidence` (ice_scoring.py lines 74-103). -/
def calculate_confidence (d : IceData) : ℚ :=
  let base := (5 : ℚ)
  let base := if d.has_case_studies then pyAdd base 2 else base
  let base := if (3 : ℚ) < d.case_study_count then pyAdd base 1 else base
  let base := if d.follows_best_practices then pyAdd base (Rat.divInt 3 2) else base
  let base := if d.industry_standard then pyAdd base 1 else base
  let base := pyAdd base (pyMul d.reasoning_strength 2)
  pyMin 10 (pyMax 1 base)

/-- Embeds `complexity_scores.get(complexity, 0)` in `ICEScorer.calculate_effort`. -/
def complexity_scores (c : String) : ℚ :=
  if c = "low" then -2
  else if c = "medium" then 0
  else if c = "high" then 2
  else 0

/-- Embeds `ICEScorer.calculate_effort` (ice_scoring.py lines 105-144). -/
def calculate_effort (d : IceData) : ℚ :=
  let base := pyAdd 5 (complexity_scores (d.complexity.getD "medium"))
  let base :=
    if d.dev_time_days ≤ 1 then pySub base 2
    else if d.dev_time_days ≤ 3 then pySub base 1
    else if (7 : ℚ) ≤ d.dev_time_days then pyAdd base 2
    else base
  let base := if d.requires_design then pyAdd base 1 else base
  let base := if d.requires_copywriting then pyAdd base (Rat.divInt 1 2) else base
  let base := if d.requires_ab_testing then pyAdd base 1 else base
  let base := if d.requires_user_research then pyAdd base (Rat.divInt 3 2) else base
  pyMin 10 (pyMax 1 base)

/-- Embeds `ICEScorer.calculate_ice_score` (ice_scoring.py lines 146-162). -/
def calculate_ice_score (impact confidence effort : ℚ) : ℚ :=
  if effort = 0 then 0
  else roundPy 2 (pyDiv (pyMul impact confidence) effort)

/-- Embeds `ICEScorer.get_priority_level` (ice_scoring.py lines 164-179). -/
def get_priority_level (ice_score : ℚ) : String :=
  if (8 : ℚ) ≤ ice_score then "high"
  else if (4 : ℚ) ≤ ice_score then "medium"
  else "low"

/-- Embeds `ICEScorer._estimate_lift` (ice_scoring.py lines 207-218). -/
def estimate_lift (impact confidence : ℚ) : String :=
  let expected := pyMul (pyDiv (pyMul impact confidence) 100) 25
  if (15 : ℚ) ≤ expected then "15-25% conversion increase"
  else if (10 : ℚ) ≤ expected then "10-15% conversion increase"
  else if (5 : ℚ) ≤ expected then "5-10% conversion increase"
  else "2-5% conversion increase"

/-- Embeds `ICEScorer._estimate_time` (ice_scoring.py lines 220-227). -/
def estimate_time (effort : ℚ) : String :=
  if effort ≤ 3 then "1-2 days"
  else if effort ≤ 6 then "3-5 days"
  else "1-2 weeks"

/-- Result record of `ICEScorer.score_idea`. -/
structure IceScores where
  impact : ℚ
  confidence : ℚ
  effort : ℚ
  ice_score : ℚ
  priority : String
  estimated_lift : String
  implementation_time : String

/-- Embeds `ICEScorer.score_idea` (ice_scoring.py lines 181-205). -/
def score_idea (d : IceData) : IceScores :=
  let impact := calculate_impact d
  let confidence := calculate_confidence d
  let effort := calculate_effort d
  let ice := calculate_ice_score impact confidence effort
  { impact := roundPy 1 impact
    confidence := roundPy 1 confidence
    effort := roundPy 1 effort
    ice_score := ice
    priority := get_priority_level ice
    estimated_lift := estimate_lift impact confidence
    implementation_time := estimate_time effort }

/-- Embeds `ICEScorer.sort_ideas_by_priority` inner step: stable descending
insertion by the `sorted(..., key=lambda x: x.get('ice_score', 0),
reverse=True)` key.  An element is placed before the first list entry
whose key is not larger, which matches Python stable descending order. -/
def insertByScore (a : PyDict) : List PyDict → List PyDict
  | [] => [a]
  | b :: t =>
    if getNumD b "ice_score" 0 ≤ getNumD a "ice_score" 0 then a :: b :: t
    else b :: insertByScore a t

/-- Embeds `ICEScorer.sort_ideas_by_priority` (ice_scoring.py lines 229-239). -/
def sort_ideas_by_priority : List PyDict → List PyDict
  | [] => []
  | a :: t => insertByScore a (sort_ideas_by_priority t)

/-!  `GrowthAnalyzer` from `backend/app/services/growth_analyzer.py`. -/

/-- The default attribute dict returned by the `except` branch of
`GrowthAnalyzer._get_ice_data` (growth_analyzer.py lines 1652-1671). -/
def defaultIceData : IceData :=
  { category := Option.none
    affects_value_proposition := false
    affects_cta := false
    affects_trust := false
    affects_social_proof := false
    has_case_studies := true
    case_study_count := 2
    follows_best_practices := true
    industry_standard := true
    reasoning_strength := Rat.divInt 7 10
    complexity := some ("medium")
    dev_time_days := 3
    requires_design := false
    requires_copywriting := false
    requires_ab_testing := true
    requires_user_research := false }

/-- Embeds `GrowthAnalyzer._get_ice_data` (growth_analyzer.py lines 1624-1671).
The body reads `idea.get('category', 'general')` and
`idea.get('title', '').lower()`; a non-string title makes `.lower()`
raise, which the function's own `except` turns into `defaultIceData`.
The dict it builds carries no `category` key, so the scorer falls back
to its `'layout'` default weight. -/
def get_ice_data (idea : PyDict) : IceData :=
  match pyGetD idea "title" (Val.s ("")) with
  | .s rawTitle =>
    let category := pyGetD idea "category" (Val.s ("general"))
    let title := strLower rawTitle
    { category := Option.none
      affects_value_proposition := pyInB ("value") title || pyInB ("headline") title || eqStrV category ("copy")
      affects_cta := pyInB ("cta") title || pyInB ("button") title || eqStrV category ("design")
      affects_trust := pyInB ("trust") title || pyInB ("testimonial") title || eqStrV category ("trust")
      affects_social_proof := pyInB ("social") title || pyInB ("testimonial") title || eqStrV category ("social_proof")
      has_case_studies := true
      case_study_count := if eqStrV category ("social_proof") || eqStrV category ("trust") then 3 else 2
      follows_best_practices := true
      industry_standard := true
      reasoning_strength := if eqStrV category ("social_proof") || eqStrV category ("trust") then Rat.divInt 8 10 else Rat.divInt 7 10
      complexity := some (if eqStrV category ("copy") then "low" else if eqStrV category ("design") then "medium" else "high")
      dev_time_days := if eqStrV category ("copy") then 1 else if eqStrV category ("design") then 3 else 5
      requires_design := eqStrV category ("design")
      requires_copywriting := eqStrV category ("copy")
      requires_ab_testing := true
      requires_user_research := eqStrV category ("ux") }
  | _ => defaultIceData

/-- One entry built by the loop of `GrowthAnalyzer._score_ideas_with_ice`
(growth_analyzer.py lines 1570-1599) for the idea at 0-based index `i`.
Note the ICE numbers live under the nested `ice` dict (key `score`); no
top-level `ice_score` key is written. -/
def scoredEntry (i : ℕ) (idea : PyDict) : PyDict :=
  let ice := score_idea (get_ice_data idea)
  [("id", Val.s ("idea_" ++ toString (i + 1))),
   ("title", pyGetD idea "title" (Val.s ("Idea " ++ toString (i + 1)))),
   ("description", pyGetD idea "description" (Val.s (""))),
   ("hypothesis", pyGetD idea "hypothesis" (Val.s (""))),
   ("category", pyGetD idea "category" (Val.s ("general"))),
   ("reasoning", pyGetD idea "reasoning" (Val.s (""))),
   ("implementation", pyGetD idea "implementation" (Val.s (""))),
   ("success_metrics", pyGetD idea "success_metrics" (Val.s (""))),
   ("priority", pyGetD idea "priority" (Val.s ("medium"))),
   ("ice", Val.d [("impact", Val.q ice.impact), ("confidence", Val.q ice.confidence),
                  ("effort", Val.q ice.effort), ("score", Val.q ice.ice_score)]),
   ("estimated_lift", Val.s ice.estimated_lift),
   ("implementation_time", Val.s ice.implementation_time)]

/-- The `for i, idea in enumerate(ideas)` loop of `_score_ideas_with_ice`. -/
def scoreLoop : ℕ → List PyDict → List PyDict
  | _, [] => []
  | i, idea :: rest => scoredEntry i idea :: scoreLoop (i + 1) rest

/-- Embeds `GrowthAnalyzer._score_ideas_with_ice` (growth_analyzer.py lines
1561-1622): score every idea in input order, then hand the list to
`ICEScorer.sort_ideas_by_priority`. -/
def score_ideas_with_ice (ideas : List PyDict) : List PyDict :=
  sort_ideas_by_priority (scoreLoop 0 ideas)

/-- Sum of `i.get('ice', {}).get(key, 5)` over a list, as in
`_generate_summary`. -/
def sumIceField (key : String) : List PyDict → ℚ
  | [] => 0
  | i :: rest =>
    pyAdd (match pyGetD i "ice" (Val.d []) with
           | .d ice => getNumD ice key 5
           | _ => 5)
          (sumIceField key rest)

/-- Embeds `GrowthAnalyzer._generate_summary` (growth_analyzer.py lines
1673-1690): `{}` for an empty list, otherwise the five summary fields. -/
def generate_summary (ideas : List PyDict) : PyDict :=
  if ideas.isEmpty then []
  else
    let total : ℕ := ideas.length
    let high : ℕ := (ideas.filter (fun i => eqStrV (pyGetD i "priority" Val.none) ("high"))).length
    let avg_impact := pyDiv (sumIceField ("impact") ideas) (intQ total)
    let avg_effort := pyDiv (sumIceField ("effort") ideas) (intQ total)
    [("total_ideas", Val.q (intQ total)),
     ("high_priority_ideas", Val.q (intQ high)),
     ("average_impact", Val.q (roundPy 1 avg_impact)),
     ("average_effort", Val.q (roundPy 1 avg_effort)),
     ("estimated_total_lift", Val.s ("10-25% conversion increase"))]

/-- The fixed fallback-marker phrases of
`GrowthAnalyzer._is_ai_analysis_working` (growth_analyzer.py lines
1721-1726). -/
def fallbackIndicators : List String :=
  ["enhanced landing page analysis",
   "desktop layout detected",
   "page structure: unknownxunknown",
   "fallback analysis"]

/-- Embeds `GrowthAnalyzer._is_ai_analysis_working` (growth_analyzer.py lines
1718-1728). -/
def is_ai_analysis_working (image_description : String) : Bool :=
  !(fallbackIndicators.any (fun ind => pyInB ind (strLower image_description)))

/-- Keyword lists of `GrowthAnalyzer._identify_business_type`
(growth_analyzer.py lines 971-994). -/
def meditation_indicators : List String :=
  ["calm", "meditation", "sleep", "relaxation", "mindfulness", "stress", "anxiety"]

/-- Learning-platform keyword list. -/
def learning_indicators : List String :=
  ["learn", "masterclass", "course", "lesson", "education", "skill", "training", "instructor", "teacher"]

/-- E-commerce keyword list. -/
def ecommerce_indicators : List String :=
  ["shop", "buy", "purchase", "product", "store", "cart", "checkout", "price", "sale"]

/-- SaaS keyword list. -/
def saas_indicators : List String :=
  ["software", "app", "platform", "tool", "solution", "service", "subscription", "trial"]

/-- Embeds `any(indicator in text_lower for indicator in inds)`. -/
def anyIndicator (inds : List String) (text_lower : String) : Bool :=
  inds.any (fun ind => pyInB ind text_lower)

/-- Embeds `GrowthAnalyzer._identify_business_type` (growth_analyzer.py lines
971-994): a first-match if/elif chain over the four keyword lists. -/
def identify_business_type (text_lower : String) : String :=
  if anyIndicator meditation_indicators text_lower then "meditation_app"
  else if anyIndicator learning_indicators text_lower then "learning_platform"
  else if anyIndicator ecommerce_indicators text_lower then "ecommerce"
  else if anyIndicator saas_indicators text_lower then "saas"
  else "generic"

/-- The concrete-element vocabulary of
`GrowthAnalyzer._is_idea_specific_to_image` (growth_analyzer.py lines
696-702). -/
def specific_indicators : List String :=
  ["hero", "headline", "cta", "button", "form", "testimonial", "review",
   "pricing", "feature", "benefit", "value proposition", "trust signal",
   "social proof", "guarantee", "security", "mobile", "responsive",
   "navigation", "menu", "footer", "header", "above the fold", "section",
   "image", "photo", "logo", "brand", "color", "layout", "design"]

/-- The generic-phrase list of `_is_idea_specific_to_image`
(growth_analyzer.py lines 708-711). -/
def generic_phrases : List String :=
  ["improve conversion", "increase sales", "better user experience",
   "optimize website", "enhance performance", "boost revenue"]

/-- The `title = idea.get('title', '').lower()` read of
`GrowthAnalyzer._is_idea_specific_to_image` (growth_analyzer.py lines
686-715). -/
def ideaTitleLower (idea : PyDict) : String :=
  strLower (match pyGetD idea "title" (Val.s ("")) with | .s t => t | _ => "")

/-- The `description = idea.get('description', '').lower()` read of
`_is_idea_specific_to_image`. -/
def ideaDescriptionLower (idea : PyDict) : String :=
  strLower (match pyGetD idea "description" (Val.s ("")) with | .s t => t | _ => "")

/-- Embeds `GrowthAnalyzer._is_idea_specific_to_image` (growth_analyzer.py lines
686-715).  Only the lower-cased title and description take part in the
decision; the lower-cased hypothesis and the combined image content are
computed by the Python body but never used, and the three extra
parameters are therefore unused here as well. -/
def is_idea_specific_to_image (idea : PyDict) (_image_description _extracted_text : String) (_visual_elements : PyDict) : Bool :=
  let title := ideaTitleLower idea
  let description := ideaDescriptionLower idea
  let has_specific_reference :=
    specific_indicators.any (fun ind => pyInB ind title || pyInB ind description)
  let is_not_generic :=
    !(generic_phrases.all (fun phrase => pyInB phrase title || pyInB phrase description))
  has_specific_reference && is_not_generic

/-- Embeds `GrowthAnalyzer._get_fallback_ideas` (growth_analyzer.py lines
1356-1559): the fixed pool of 20 hard-fallback idea templates. -/
def get_fallback_ideas : List PyDict :=
  [sdict [("title", "Add Customer Testimonials Section"),
    ("description", "Add a testimonials section with real customer quotes and photos below the hero section"),
    ("hypothesis", "Adding social proof will increase conversion by 15-25%"),
    ("category", "social_proof"),
    ("reasoning", "Social proof builds trust and reduces purchase anxiety"),
    ("implementation", "1. Collect customer testimonials 2. Design testimonial cards 3. Add below hero section 4. Include customer photos and names"),
    ("success_metrics", "Conversion rate increase, time on page, scroll depth"),
    ("priority", "high")],
   sdict [("title", "Optimize Hero Headline"),
    ("description", "Rewrite the main headline to focus on the primary benefit and include a clear value proposition"),
    ("hypothesis", "A benefit-focused headline will increase conversion by 20-30%"),
    ("category", "copy"),
    ("reasoning", "Clear value propositions immediately communicate what users will gain"),
    ("implementation", "1. Identify primary user benefit 2. A/B test 3-5 headline variations 3. Measure click-through rates"),
    ("success_metrics", "Click-through rate, bounce rate, conversion rate"),
    ("priority", "high")],
   sdict [("title", "Add Trust Badges"),
    ("description", "Display security badges, certifications, and guarantees prominently on the page"),
    ("hypothesis", "Trust signals will increase conversion by 10-15%"),
    ("category", "trust"),
    ("reasoning", "Trust badges reduce purchase anxiety and build credibility"),
    ("implementation", "1. Add SSL badge 2. Display money-back guarantee 3. Show customer count 4. Add security certifications"),
    ("success_metrics", "Conversion rate, cart abandonment rate"),
    ("priority", "medium")],
   sdict [("title", "Improve CTA Button Design"),
    ("description", "Make the primary CTA button more prominent with better contrast and compelling copy"),
    ("hypothesis", "A more prominent CTA will increase click-through rates by 25-40%"),
    ("category", "design"),
    ("reasoning", "Button prominence and copy directly impact conversion rates"),
    ("implementation", "1. Increase button size 2. Use high-contrast colors 3. Test action-oriented copy 4. Add hover effects"),
    ("success_metrics", "Click-through rate, conversion rate"),
    ("priority", "high")],
   sdict [("title", "Add Urgency Elements"),
    ("description", "Include countdown timers, limited-time offers, or stock scarcity indicators"),
    ("hypothesis", "Urgency will increase conversion by 15-25%"),
    ("category", "ux"),
    ("reasoning", "Urgency creates FOMO and accelerates decision-making"),
    ("implementation", "1. Add countdown timer 2. Show limited stock 3. Display expiring offers 4. Test different urgency messages"),
    ("success_metrics", "Conversion rate, time to purchase"),
    ("priority", "medium")],
   sdict [("title", "Optimize Form Fields"),
    ("description", "Reduce form fields to minimum required and add progress indicators"),
    ("hypothesis", "Reducing form friction will increase completion rates by 20-35%"),
    ("category", "ux"),
    ("reasoning", "Every form field reduces conversion likelihood"),
    ("implementation", "1. Remove unnecessary fields 2. Add progress bar 3. Use smart defaults 4. Add field validation"),
    ("success_metrics", "Form completion rate, time to complete"),
    ("priority", "high")],
   sdict [("title", "Add Social Proof Numbers"),
    ("description", "Display customer count, reviews count, or other social proof metrics prominently"),
    ("hypothesis", "Social proof numbers will increase trust and conversion by 10-20%"),
    ("category", "social_proof"),
    ("reasoning", "Numbers provide concrete evidence of popularity and trust"),
    ("implementation", "1. Add customer count 2. Display review count 3. Show satisfaction rate 4. Add \x22as featured in\x22 logos"),
    ("success_metrics", "Conversion rate, trust indicators"),
    ("priority", "medium")],
   sdict [("title", "Improve Mobile Responsiveness"),
    ("description", "Ensure all elements are properly sized and spaced for mobile devices"),
    ("hypothesis", "Better mobile experience will increase mobile conversion by 30-50%"),
    ("category", "technical"),
    ("reasoning", "Mobile users have different needs and behaviors than desktop users"),
    ("implementation", "1. Test on multiple devices 2. Optimize touch targets 3. Improve loading speed 4. Simplify navigation"),
    ("success_metrics", "Mobile conversion rate, bounce rate"),
    ("priority", "high")],
   sdict [("title", "Add FAQ Section"),
    ("description", "Create a comprehensive FAQ section to address common objections and questions"),
    ("hypothesis", "FAQ section will reduce support inquiries and increase conversion by 10-15%"),
    ("category", "copy"),
    ("reasoning", "FAQs address objections before they become barriers to conversion"),
    ("implementation", "1. Research common questions 2. Write clear answers 3. Add searchable FAQ 4. Link from key areas"),
    ("success_metrics", "Support ticket reduction, conversion rate"),
    ("priority", "medium")],
   sdict [("title", "Implement Exit-Intent Popup"),
    ("description", "Show a compelling offer when users are about to leave the page"),
    ("hypothesis", "Exit-intent popup will recover 5-15% of abandoning visitors"),
    ("category", "ux"),
    ("reasoning", "Exit-intent captures users who would otherwise leave without converting"),
    ("implementation", "1. Design compelling offer 2. Set up exit detection 3. A/B test different offers 4. Track performance"),
    ("success_metrics", "Recovery rate, additional conversions"),
    ("priority", "medium")],
   sdict [("title", "Add Video Testimonials"),
    ("description", "Include video testimonials from satisfied customers to build trust"),
    ("hypothesis", "Video testimonials will increase conversion by 20-35%"),
    ("category", "social_proof"),
    ("reasoning", "Video testimonials are more engaging and credible than text"),
    ("implementation", "1. Record customer testimonials 2. Edit for clarity 3. Add to hero section 4. Include transcripts"),
    ("success_metrics", "Engagement rate, conversion rate, time on page"),
    ("priority", "high")],
   sdict [("title", "Optimize Page Load Speed"),
    ("description", "Improve page loading speed by optimizing images, scripts, and server response"),
    ("hypothesis", "Faster loading will increase conversion by 10-20%"),
    ("category", "technical"),
    ("reasoning", "Page speed directly impacts user experience and search rankings"),
    ("implementation", "1. Compress images 2. Minify CSS/JS 3. Enable caching 4. Use CDN"),
    ("success_metrics", "Page load time, bounce rate, conversion rate"),
    ("priority", "medium")],
   sdict [("title", "Add Money-Back Guarantee"),
    ("description", "Prominently display a money-back guarantee to reduce purchase risk"),
    ("hypothesis", "Money-back guarantee will increase conversion by 15-25%"),
    ("category", "trust"),
    ("reasoning", "Guarantees reduce perceived risk and increase purchase confidence"),
    ("implementation", "1. Design guarantee badge 2. Add to multiple locations 3. Include terms 4. Test different guarantees"),
    ("success_metrics", "Conversion rate, refund rate"),
    ("priority", "high")],
   sdict [("title", "Create Comparison Table"),
    ("description", "Add a comparison table showing your product vs competitors"),
    ("hypothesis", "Comparison table will increase conversion by 20-30%"),
    ("category", "copy"),
    ("reasoning", "Comparison tables help users make informed decisions quickly"),
    ("implementation", "1. Research competitors 2. Create comparison matrix 3. Highlight advantages 4. Add to pricing section"),
    ("success_metrics", "Conversion rate, time to decision"),
    ("priority", "medium")],
   sdict [("title", "Add Live Chat Support"),
    ("description", "Implement live chat to provide immediate support and answer questions"),
    ("hypothesis", "Live chat will increase conversion by 10-20%"),
    ("category", "ux"),
    ("reasoning", "Live chat reduces friction and provides immediate assistance"),
    ("implementation", "1. Choose chat platform 2. Set up chat widget 3. Train support team 4. Monitor performance"),
    ("success_metrics", "Chat engagement, conversion rate"),
    ("priority", "medium")],
   sdict [("title", "Optimize Above-the-Fold Content"),
    ("description", "Ensure the most important content and CTA are visible without scrolling"),
    ("hypothesis", "Better above-the-fold content will increase conversion by 25-40%"),
    ("category", "layout"),
    ("reasoning", "Users make decisions based on what they see immediately"),
    ("implementation", "1. Audit above-the-fold content 2. Prioritize key elements 3. Test different layouts 4. Measure engagement"),
    ("success_metrics", "Scroll depth, conversion rate"),
    ("priority", "high")],
   sdict [("title", "Add Social Media Proof"),
    ("description", "Display social media feeds, follower counts, or social sharing buttons"),
    ("hypothesis", "Social media proof will increase trust and conversion by 10-15%"),
    ("category", "social_proof"),
    ("reasoning", "Social media presence builds credibility and trust"),
    ("implementation", "1. Add social media feeds 2. Display follower counts 3. Show social shares 4. Link to social profiles"),
    ("success_metrics", "Social engagement, conversion rate"),
    ("priority", "low")],
   sdict [("title", "Implement A/B Testing Framework"),
    ("description", "Set up A/B testing to continuously optimize page elements"),
    ("hypothesis", "A/B testing will increase conversion by 10-30% over time"),
    ("category", "technical"),
    ("reasoning", "Data-driven optimization leads to better performance"),
    ("implementation", "1. Choose testing platform 2. Set up tracking 3. Create test hypotheses 4. Run continuous tests"),
    ("success_metrics", "Test win rate, overall conversion improvement"),
    ("priority", "high")],
   sdict [("title", "Add Progress Indicators"),
    ("description", "Show progress bars or step indicators for multi-step processes"),
    ("hypothesis", "Progress indicators will increase completion rates by 15-25%"),
    ("category", "ux"),
    ("reasoning", "Progress indicators reduce anxiety and increase completion likelihood"),
    ("implementation", "1. Add progress bars 2. Show step numbers 3. Include time estimates 4. Test different designs"),
    ("success_metrics", "Completion rate, time to complete"),
    ("priority", "medium")],
   sdict [("title", "Optimize for Voice Search"),
    ("description", "Include natural language keywords and FAQ content for voice search optimization"),
    ("hypothesis", "Voice search optimization will increase organic traffic by 15-25%"),
    ("category", "technical"),
    ("reasoning", "Voice search is growing rapidly and requires different optimization"),
    ("implementation", "1. Research voice keywords 2. Add natural language content 3. Optimize for featured snippets 4. Test voice queries"),
    ("success_metrics", "Voice search traffic, featured snippet appearances"),
    ("priority", "low")]]

/-- Embeds `GrowthAnalyzer._generate_tactical_fallback_ideas` (growth_analyzer.py
lines 1227-1330): a fixed pool of 10 proven-tactic templates; the three
parameters of the Python method are ignored by its body. -/
def generate_tactical_fallback_ideas (_image_description _extracted_text : String) (_visual_elements : PyDict) : List PyDict :=
  [sdict [("title", "Add \x22As Seen In\x22 Media Logos Section"),
    ("description", "Display logos of media outlets, publications, or companies that have featured or used your product"),
    ("hypothesis", "Media logos will increase credibility and conversion by 15-25%"),
    ("category", "social_proof"),
    ("reasoning", "Media logos act as third-party validation and build instant credibility"),
    ("implementation", "1. Collect media logos (Forbes, TechCrunch, etc.) 2. Create \x22As Seen In\x22 section 3. Place above or below hero 4. Ensure logos are clickable to articles"),
    ("success_metrics", "Conversion rate, trust score, time on page"),
    ("priority", "medium")],
   sdict [("title", "Add \x22Join X,XXX+ Customers\x22 Social Proof"),
    ("description", "Display the number of customers or users prominently on the page"),
    ("hypothesis", "Customer count will increase social proof and conversion by 10-20%"),
    ("category", "social_proof"),
    ("reasoning", "Large numbers create social proof and reduce purchase anxiety"),
    ("implementation", "1. Calculate total customers/users 2. Create \x22Join X,XXX+ customers\x22 text 3. Place near CTA or hero section 4. Update number regularly"),
    ("success_metrics", "Conversion rate, trust score"),
    ("priority", "low")],
   sdict [("title", "Add \x22Free Trial\x22 or \x22Money-Back Guarantee\x22 Badge"),
    ("description", "Display a prominent badge showing free trial or money-back guarantee"),
    ("hypothesis", "Risk reversal will increase conversion by 20-35%"),
    ("category", "trust"),
    ("reasoning", "Risk reversal reduces purchase anxiety and increases confidence"),
    ("implementation", "1. Design guarantee badge 2. Place near CTA buttons 3. Make badge prominent and colorful 4. Link to guarantee terms"),
    ("success_metrics", "Conversion rate, cart abandonment rate"),
    ("priority", "medium")],
   sdict [("title", "Add \x22Limited Time\x22 or \x22Exclusive\x22 Offer"),
    ("description", "Create urgency with limited-time pricing or exclusive access"),
    ("hypothesis", "Scarcity will increase conversion by 25-40%"),
    ("category", "ux"),
    ("reasoning", "Scarcity creates FOMO and motivates immediate action"),
    ("implementation", "1. Create limited-time offer 2. Add countdown timer 3. Use \x22Exclusive\x22 or \x22Limited Time\x22 language 4. Place near CTAs"),
    ("success_metrics", "Conversion rate, time to purchase"),
    ("priority", "medium")],
   sdict [("title", "Add \x22How It Works\x22 Step-by-Step Section"),
    ("description", "Create a visual step-by-step guide showing how your product works"),
    ("hypothesis", "Process clarity will increase understanding and conversion by 15-25%"),
    ("category", "ux"),
    ("reasoning", "Clear process reduces confusion and builds confidence"),
    ("implementation", "1. Break down process into 3-4 steps 2. Add icons or visuals 3. Use simple language 4. Place after hero section"),
    ("success_metrics", "Time on page, conversion rate, bounce rate"),
    ("priority", "low")],
   sdict [("title", "Add \x22Before/After\x22 Case Study Section"),
    ("description", "Show specific results with before/after comparisons"),
    ("hypothesis", "Specific results will increase conversion by 30-50%"),
    ("category", "social_proof"),
    ("reasoning", "Specific results are more compelling than generic testimonials"),
    ("implementation", "1. Find customer with measurable results 2. Create before/after comparison 3. Include specific metrics 4. Add customer photo and name"),
    ("success_metrics", "Conversion rate, time on page"),
    ("priority", "high")],
   sdict [("title", "Add \x22FAQ\x22 Section to Address Objections"),
    ("description", "Create FAQ section addressing common customer concerns"),
    ("hypothesis", "Addressing objections will increase conversion by 10-20%"),
    ("category", "copy"),
    ("reasoning", "FAQs preemptively address concerns that might prevent purchase"),
    ("implementation", "1. Identify common objections 2. Create FAQ section 3. Use clear, benefit-focused answers 4. Place before footer"),
    ("success_metrics", "Conversion rate, support inquiries"),
    ("priority", "low")],
   sdict [("title", "Add \x22Live Chat\x22 or \x22Support\x22 Indicator"),
    ("description", "Show that help is available with live chat or support indicators"),
    ("hypothesis", "Support availability will increase confidence and conversion by 10-15%"),
    ("category", "trust"),
    ("reasoning", "Support availability reduces purchase anxiety"),
    ("implementation", "1. Add live chat widget 2. Show support hours 3. Display response time 4. Place in visible location"),
    ("success_metrics", "Conversion rate, support inquiries"),
    ("priority", "low")],
   sdict [("title", "Add \x22Mobile-First\x22 Design Optimization"),
    ("description", "Ensure the page is optimized for mobile users with responsive design"),
    ("hypothesis", "Mobile optimization will increase mobile conversion by 20-40%"),
    ("category", "technical"),
    ("reasoning", "Mobile users have different needs and behaviors than desktop users"),
    ("implementation", "1. Test mobile experience 2. Optimize button sizes 3. Improve mobile navigation 4. Test mobile forms"),
    ("success_metrics", "Mobile conversion rate, bounce rate"),
    ("priority", "medium")],
   sdict [("title", "Add \x22A/B Testing\x22 Framework"),
    ("description", "Set up systematic A/B testing for key page elements"),
    ("hypothesis", "A/B testing will identify winning variations and increase conversion by 10-30%"),
    ("category", "technical"),
    ("reasoning", "Data-driven optimization consistently outperforms guesswork"),
    ("implementation", "1. Set up A/B testing tool 2. Test headlines, CTAs, images 3. Run tests for statistical significance 4. Implement winning variations"),
    ("success_metrics", "Conversion rate improvement, test win rate"),
    ("priority", "medium")]]

/-- Python `len(v)` for a dict value. -/
def pyLenV : Val → ℕ
  | .l v => v.length
  | .d v => v.length
  | .s v => v.length
  | _ => 0

/-- Embeds `GrowthAnalyzer._generate_specific_ideas_from_analysis`
(growth_analyzer.py lines 748-934): one idea per detected/missing element
kind (buttons, forms, headlines, images, mobile layout), one more when
colors were detected, then three fixed proven-growth ideas. -/
def generate_specific_ideas_from_analysis (_image_description _extracted_text : String) (visual_elements : PyDict) : List PyDict :=
  let buttons := pyGetD visual_elements "buttons" (Val.l [])
  let forms := pyGetD visual_elements "forms" (Val.l [])
  let headlines := pyGetD visual_elements "headlines" (Val.l [])
  let images := pyGetD visual_elements "images" (Val.l [])
  let layout := pyGetD visual_elements "layout" (Val.d [])
  let colors := pyGetD visual_elements "colors" (Val.d [])
  let buttonIdea :=
    if pyTruthy buttons then
      [("title", Val.s ("Optimize Existing CTA Button Copy and Design")),
       ("description", Val.s ("Improve the " ++ toString (pyLenV buttons) ++ " detected CTA buttons with action-oriented copy and better visual hierarchy")),
       ("hypothesis", Val.s ("Better CTA design will increase click-through rates by 20-30%")),
       ("category", Val.s ("design")),
       ("reasoning", Val.s ("Existing CTAs can be optimized for better conversion performance")),
       ("implementation", Val.s ("1. Analyze current button text 2. Replace with action-oriented copy 3. Test button colors and sizes 4. A/B test variations")),
       ("success_metrics", Val.s ("Click-through rate, conversion rate")),
       ("priority", Val.s ("high"))]
    else
      sdict [("title", "Add Primary CTA Button in Hero Section"),
       ("description", "Create a prominent call-to-action button in the hero section to capture user attention"),
       ("hypothesis", "Adding a primary CTA will increase conversion by 40-60%"),
       ("category", "design"),
       ("reasoning", "Hero CTAs are critical for capturing immediate user interest"),
       ("implementation", "1. Design prominent CTA button 2. Use action-oriented copy 3. Place in hero section 4. Test button colors"),
       ("success_metrics", "Click-through rate, conversion rate"),
       ("priority", "high")]
  let formIdea :=
    if pyTruthy forms then
      [("title", Val.s ("Optimize Form Fields and Reduce Friction")),
       ("description", Val.s ("Improve the " ++ toString (pyLenV forms) ++ " detected form fields to reduce abandonment and increase completion")),
       ("hypothesis", Val.s ("Form optimization will increase completion rates by 30-50%")),
       ("category", Val.s ("ux")),
       ("reasoning", Val.s ("Forms are major conversion points that often have high abandonment rates")),
       ("implementation", Val.s ("1. Audit current form fields 2. Remove unnecessary fields 3. Add progress indicator 4. Improve field labels")),
       ("success_metrics", Val.s ("Form completion rate, conversion rate, time to complete")),
       ("priority", Val.s ("high"))]
    else
      sdict [("title", "Add Lead Capture Form Below Hero"),
       ("description", "Create a lead capture form to collect email addresses and generate leads"),
       ("hypothesis", "Adding lead capture will increase lead generation by 50-100%"),
       ("category", "ux"),
       ("reasoning", "Lead capture forms are essential for building email lists and generating leads"),
       ("implementation", "1. Design simple lead form 2. Add compelling offer 3. Place below hero section 4. Test form copy"),
       ("success_metrics", "Lead capture rate, email signups"),
       ("priority", "high")]
  let headlineIdea :=
    if pyTruthy headlines then
      sdict [("title", "Rewrite Hero Headline for Better Value Proposition"),
       ("description", "Optimize the main headline to focus on specific benefits and clear value proposition"),
       ("hypothesis", "Benefit-focused headline will increase conversion by 25-35%"),
       ("category", "copy"),
       ("reasoning", "Headlines are the first thing users see and need to communicate immediate value"),
       ("implementation", "1. Identify primary user benefit 2. Rewrite headline to lead with benefit 3. A/B test variations 4. Measure conversion lift"),
       ("success_metrics", "Click-through rate, bounce rate, conversion rate"),
       ("priority", "high")]
    else
      sdict [("title", "Add Compelling Hero Headline"),
       ("description", "Create a benefit-focused headline that immediately communicates value to visitors"),
       ("hypothesis", "Adding a compelling headline will increase engagement by 40-60%"),
       ("category", "copy"),
       ("reasoning", "Hero headlines are critical for capturing user attention and communicating value"),
       ("implementation", "1. Identify primary user benefit 2. Write benefit-focused headline 3. Test different variations 4. Optimize for clarity"),
       ("success_metrics", "Time on page, bounce rate, engagement"),
       ("priority", "high")]
  let imageIdea :=
    if pyTruthy images then
      sdict [("title", "Optimize Images for Better Conversion"),
       ("description", "Improve the visual content to better support conversion goals and user engagement"),
       ("hypothesis", "Optimized images will increase engagement and conversion by 15-25%"),
       ("category", "design"),
       ("reasoning", "Visual content can significantly impact user perception and conversion"),
       ("implementation", "1. Audit current images 2. Replace with conversion-focused visuals 3. Add customer photos 4. Test image placement"),
       ("success_metrics", "Time on page, engagement, conversion rate"),
       ("priority", "medium")]
    else
      sdict [("title", "Add Customer Photos and Social Proof Images"),
       ("description", "Include customer photos, testimonials, and social proof images to build trust"),
       ("hypothesis", "Adding customer photos will increase trust and conversion by 20-40%"),
       ("category", "social_proof"),
       ("reasoning", "Customer photos and social proof build trust and reduce purchase anxiety"),
       ("implementation", "1. Collect customer photos 2. Add testimonial images 3. Include company logos 4. Place strategically"),
       ("success_metrics", "Trust score, conversion rate, time on page"),
       ("priority", "medium")]
  let layoutIdea :=
    if pyTruthy (pyGetD (match layout with | .d m => m | _ => []) "is_mobile" Val.none) then
      sdict [("title", "Optimize Mobile Experience and Touch Targets"),
       ("description", "Improve mobile usability with better touch targets and mobile-first design"),
       ("hypothesis", "Mobile optimization will increase mobile conversion by 30-50%"),
       ("category", "ux"),
       ("reasoning", "Mobile users have different needs and behaviors than desktop users"),
       ("implementation", "1. Test mobile experience 2. Optimize touch targets 3. Improve mobile navigation 4. Test mobile forms"),
       ("success_metrics", "Mobile conversion rate, bounce rate, time on page"),
       ("priority", "high")]
    else
      sdict [("title", "Add Mobile-Responsive Design Elements"),
       ("description", "Ensure the page works well on mobile devices with responsive design"),
       ("hypothesis", "Mobile responsiveness will increase mobile conversion by 25-40%"),
       ("category", "technical"),
       ("reasoning", "Mobile traffic is significant and requires optimized experience"),
       ("implementation", "1. Test mobile layout 2. Optimize for mobile screens 3. Improve mobile navigation 4. Test mobile CTAs"),
       ("success_metrics", "Mobile conversion rate, mobile bounce rate"),
       ("priority", "medium")]
  let colorIdeas :=
    if pyTruthy colors then
      [sdict [("title", "Optimize Color Scheme for Better Conversion"),
        ("description", "Test different color combinations to improve visual hierarchy and conversion"),
        ("hypothesis", "Optimized colors will increase conversion by 10-20%"),
        ("category", "design"),
        ("reasoning", "Colors affect user psychology and can significantly impact conversion"),
        ("implementation", "1. Test CTA button colors 2. Optimize color contrast 3. Test background colors 4. A/B test color schemes"),
        ("success_metrics", "Conversion rate, click-through rate"),
        ("priority", "medium")]]
    else []
  let provenIdeas :=
    [sdict [("title", "Add Customer Testimonials Section Below Hero"),
      ("description", "Create a testimonials section with customer quotes, photos, and specific results"),
      ("hypothesis", "Adding social proof will increase conversion by 25-40%"),
      ("category", "social_proof"),
      ("reasoning", "Social proof reduces purchase anxiety and builds credibility - especially important for new visitors"),
      ("implementation", "1. Collect 3-5 customer testimonials with photos 2. Include specific results and company names 3. Design testimonial cards 4. Place below hero section 5. Add trust badges"),
      ("success_metrics", "Conversion rate, bounce rate, time on page"),
      ("priority", "high")],
     sdict [("title", "Add Security Badges and Money-Back Guarantee"),
      ("description", "Display SSL certificate, security badges, and money-back guarantee prominently on the page"),
      ("hypothesis", "Trust signals will reduce purchase anxiety and increase conversion by 15-25%"),
      ("category", "trust"),
      ("reasoning", "Trust signals reduce friction and build confidence, especially for new customers"),
      ("implementation", "1. Add SSL certificate badge 2. Display money-back guarantee 3. Show customer count or satisfaction rate 4. Add security certifications 5. Place near CTAs"),
      ("success_metrics", "Conversion rate, cart abandonment rate, trust score"),
      ("priority", "medium")],
     sdict [("title", "Add Limited-Time Offer with Countdown Timer"),
      ("description", "Create urgency by adding a limited-time offer with a countdown timer near the CTA"),
      ("hypothesis", "Urgency will increase conversion by 20-35%"),
      ("category", "ux"),
      ("reasoning", "Urgency creates FOMO and motivates immediate action"),
      ("implementation", "1. Create limited-time offer (e.g., \x2250% off for first 100 customers\x22) 2. Add countdown timer 3. Place near primary CTA 4. Test different timeframes"),
      ("success_metrics", "Conversion rate, time to purchase, cart abandonment"),
      ("priority", "medium")]]
  [buttonIdea, formIdea, headlineIdea, imageIdea, layoutIdea] ++ colorIdeas ++ provenIdeas

/-- Embeds `GrowthAnalyzer._generate_meditation_app_ideas` (growth_analyzer.py
lines 1083-1136). -/
def generate_meditation_app_ideas (text_lower : String) (_visual_elements : PyDict) : List PyDict :=
  (if pyInB ("calm") text_lower then
    [sdict [("title", "Change \x22Try Calm for Free\x22 to \x22Start Your Free Meditation\x22"),
      ("description", "Replace the generic \x22Try Calm for Free\x22 CTA with more specific, benefit-focused copy that emphasizes the meditation aspect"),
      ("hypothesis", "Benefit-specific CTA will increase conversion by 25-35%"),
      ("category", "copy"),
      ("reasoning", "Specific benefit-focused CTAs convert better than generic \x22try\x22 language"),
      ("implementation", "1. Change button text from \x22Try Calm for Free\x22 to \x22Start Your Free Meditation\x22 2. Test alternative versions like \x22Begin Your Meditation Journey\x22 3. A/B test against current version"),
      ("success_metrics", "Click-through rate, conversion rate"),
      ("priority", "high")]]
  else []) ++
  (if pyInB ("calm your mind") text_lower then
    [sdict [("title", "Add Specific Benefits Below \x22Calm your mind. Change your life.\x22"),
      ("description", "Add 3-4 specific benefits below the main headline to provide immediate value proposition"),
      ("hypothesis", "Specific benefits will increase engagement and conversion by 20-30%"),
      ("category", "copy"),
      ("reasoning", "Specific benefits are more compelling than generic statements"),
      ("implementation", "1. Add bullet points: \x22• Fall asleep 3x faster • Reduce stress by 40% • Improve focus by 60%\x22 2. Place below main headline 3. Use benefit-focused language"),
      ("success_metrics", "Time on page, scroll depth, conversion rate"),
      ("priority", "high")]]
  else []) ++
  [sdict [("title", "Add \x227-Day Sleep Challenge\x22 Free Trial"),
    ("description", "Create a specific 7-day sleep improvement challenge instead of generic free trial"),
    ("hypothesis", "Specific challenge will increase trial signup by 40-60%"),
    ("category", "ux"),
    ("reasoning", "Specific challenges are more compelling than generic trials"),
    ("implementation", "1. Create \x227-Day Sleep Challenge\x22 landing page 2. Add specific daily goals 3. Include progress tracking 4. Send daily emails"),
    ("success_metrics", "Trial signup rate, completion rate"),
    ("priority", "high")],
   sdict [("title", "Add \x22Before/After Sleep Quality\x22 Testimonials"),
    ("description", "Show specific sleep improvement results with before/after comparisons"),
    ("hypothesis", "Specific sleep results will increase conversion by 35-50%"),
    ("category", "social_proof"),
    ("reasoning", "Specific results are more compelling than generic testimonials"),
    ("implementation", "1. Collect sleep quality improvement stories 2. Create before/after comparisons 3. Include specific metrics (hours slept, quality score) 4. Add customer photos"),
    ("success_metrics", "Conversion rate, time on page"),
    ("priority", "high")]]

/-- Embeds `GrowthAnalyzer._generate_learning_platform_ideas` (growth_analyzer.py
lines 996-1081). -/
def generate_learning_platform_ideas (text_lower : String) (_visual_elements : PyDict) : List PyDict :=
  (if pyInB ("masterclass") text_lower then
    [sdict [("title", "Change \x22Get MasterClass\x22 to \x22Start Learning Today\x22"),
      ("description", "Replace the generic \x22Get MasterClass\x22 CTA with more specific, action-oriented copy that emphasizes immediate learning"),
      ("hypothesis", "Action-oriented CTA will increase conversion by 25-35%"),
      ("category", "copy"),
      ("reasoning", "Specific action-focused CTAs convert better than generic \x22get\x22 language"),
      ("implementation", "1. Change button text from \x22Get MasterClass\x22 to \x22Start Learning Today\x22 2. Test alternatives like \x22Begin Your Journey\x22 or \x22Access All Classes\x22 3. A/B test against current version"),
      ("success_metrics", "Click-through rate, conversion rate"),
      ("priority", "high")]]
  else []) ++
  (if pyInB ("learn from the best") text_lower then
    [sdict [("title", "Add Specific Instructor Names Below \x22LEARN FROM THE BEST\x22"),
      ("description", "Add 3-4 specific instructor names below the main headline to provide immediate credibility and interest"),
      ("hypothesis", "Specific instructor names will increase engagement and conversion by 30-40%"),
      ("category", "copy"),
      ("reasoning", "Specific names are more compelling than generic \x22best\x22 language"),
      ("implementation", "1. Add instructor names like \x22Learn from Gordon Ramsay, Serena Williams, and Neil deGrasse Tyson\x22 2. Place below main headline 3. Include instructor photos"),
      ("success_metrics", "Time on page, scroll depth, conversion rate"),
      ("priority", "high")]]
  else []) ++
  (if pyInB ("bite-sized lessons") text_lower then
    [sdict [("title", "Add \x22Complete a Lesson in 10 Minutes\x22 Social Proof"),
      ("description", "Add specific social proof about lesson completion time to emphasize the bite-sized nature"),
      ("hypothesis", "Time-specific social proof will increase conversion by 25-35%"),
      ("category", "social_proof"),
      ("reasoning", "Time commitment is a major barrier - showing quick wins builds confidence"),
      ("implementation", "1. Add \x22Complete a lesson in just 10 minutes\x22 2. Include completion rate stats 3. Place below hero section 4. Add student testimonials"),
      ("success_metrics", "Conversion rate, lesson completion rate"),
      ("priority", "high")]]
  else []) ++
  [sdict [("title", "Add \x22What Do You Want to Learn?\x22 Quiz"),
    ("description", "Create an interactive learning preference quiz to engage users and provide personalized recommendations"),
    ("hypothesis", "Personalized recommendations will increase conversion by 40-60%"),
    ("category", "ux"),
    ("reasoning", "Personalization increases relevance and engagement"),
    ("implementation", "1. Create 5-question learning preference quiz 2. Provide personalized course recommendations 3. Collect email for results 4. Follow up with relevant content"),
    ("success_metrics", "Engagement rate, conversion rate, email signups"),
    ("priority", "high")],
   sdict [("title", "Add \x22Student Success Stories\x22 Section"),
    ("description", "Show specific student achievements and career improvements from taking courses"),
    ("hypothesis", "Student success stories will increase conversion by 35-50%"),
    ("category", "social_proof"),
    ("reasoning", "Specific results are more compelling than generic testimonials"),
    ("implementation", "1. Collect student success stories 2. Include before/after career improvements 3. Add student photos and names 4. Place after hero section"),
    ("success_metrics", "Conversion rate, time on page"),
    ("priority", "high")],
   sdict [("title", "Add \x22Free Sample Lesson\x22 CTA"),
    ("description", "Offer a free sample lesson to reduce friction and demonstrate value"),
    ("hypothesis", "Free sample will increase trial signup by 50-80%"),
    ("category", "ux"),
    ("reasoning", "Free samples reduce purchase anxiety and demonstrate value"),
    ("implementation", "1. Create free sample lesson page 2. Add \x22Try a Free Lesson\x22 CTA 3. Collect email for access 4. Follow up with course recommendations"),
    ("success_metrics", "Trial signup rate, email capture rate"),
    ("priority", "high")],
   sdict [("title", "Add \x22Course Completion Certificates\x22 Feature"),
    ("description", "Highlight that students receive certificates upon course completion"),
    ("hypothesis", "Certificates will increase conversion by 20-30%"),
    ("category", "trust"),
    ("reasoning", "Certificates provide tangible value and career benefits"),
    ("implementation", "1. Add certificate preview to course pages 2. Show certificate examples 3. Highlight career benefits 4. Add to course descriptions"),
    ("success_metrics", "Conversion rate, course completion rate"),
    ("priority", "medium")]]

/-- Embeds `GrowthAnalyzer._generate_ecommerce_ideas` (growth_analyzer.py lines
1138-1165). -/
def generate_ecommerce_ideas (_text_lower : String) (_visual_elements : PyDict) : List PyDict :=
  [sdict [("title", "Add \x22Free Shipping\x22 Badge Near CTAs"),
    ("description", "Display free shipping offer prominently to reduce purchase anxiety"),
    ("hypothesis", "Free shipping will increase conversion by 20-30%"),
    ("category", "trust"),
    ("reasoning", "Free shipping reduces purchase friction and builds trust"),
    ("implementation", "1. Add \x22Free Shipping\x22 badge near product CTAs 2. Make badge prominent and colorful 3. Test different placements"),
    ("success_metrics", "Conversion rate, cart abandonment rate"),
    ("priority", "high")],
   sdict [("title", "Add \x22Customer Reviews\x22 Section"),
    ("description", "Display customer reviews and ratings to build trust"),
    ("hypothesis", "Customer reviews will increase conversion by 25-40%"),
    ("category", "social_proof"),
    ("reasoning", "Customer reviews build trust and reduce purchase anxiety"),
    ("implementation", "1. Add customer review section 2. Include star ratings 3. Show review photos 4. Place near product CTAs"),
    ("success_metrics", "Conversion rate, trust score"),
    ("priority", "high")]]

/-- Embeds `GrowthAnalyzer._generate_saas_ideas` (growth_analyzer.py lines
1167-1194). -/
def generate_saas_ideas (_text_lower : String) (_visual_elements : PyDict) : List PyDict :=
  [sdict [("title", "Add \x22Free Trial\x22 CTA"),
    ("description", "Offer free trial to reduce friction and demonstrate value"),
    ("hypothesis", "Free trial will increase conversion by 40-60%"),
    ("category", "ux"),
    ("reasoning", "Free trials reduce purchase anxiety and demonstrate value"),
    ("implementation", "1. Add \x22Start Free Trial\x22 CTA 2. Make trial offer prominent 3. Collect email for trial access 4. Follow up with onboarding"),
    ("success_metrics", "Trial signup rate, conversion rate"),
    ("priority", "high")],
   sdict [("title", "Add \x22How It Works\x22 Section"),
    ("description", "Create step-by-step guide showing how the software works"),
    ("hypothesis", "Process clarity will increase understanding and conversion by 20-30%"),
    ("category", "ux"),
    ("reasoning", "Clear process reduces confusion and builds confidence"),
    ("implementation", "1. Create 3-4 step process guide 2. Add screenshots or videos 3. Use simple language 4. Place after hero section"),
    ("success_metrics", "Time on page, conversion rate"),
    ("priority", "medium")]]

/-- Embeds `GrowthAnalyzer._generate_generic_specific_ideas` (growth_analyzer.py
lines 1196-1225). -/
def generate_generic_specific_ideas (text_lower : String) (_visual_elements : PyDict) : List PyDict :=
  (if pyInB ("free") text_lower then
    [sdict [("title", "Optimize \x22Free\x22 Offer Messaging"),
      ("description", "Make the free offer more prominent and specific to increase conversion"),
      ("hypothesis", "Better free offer messaging will increase conversion by 20-30%"),
      ("category", "copy"),
      ("reasoning", "Free offers reduce friction and increase trial signups"),
      ("implementation", "1. Make free offer more prominent 2. Add specific value proposition 3. Test different free offer copy 4. A/B test placement"),
      ("success_metrics", "Conversion rate, trial signup rate"),
      ("priority", "high")]]
  else []) ++
  (if pyInB ("get") text_lower || pyInB ("start") text_lower then
    [sdict [("title", "Improve CTA Button Copy"),
      ("description", "Make the call-to-action button more specific and action-oriented"),
      ("hypothesis", "Better CTA copy will increase click-through by 25-35%"),
      ("category", "copy"),
      ("reasoning", "Specific action-oriented CTAs convert better than generic ones"),
      ("implementation", "1. Test different CTA variations 2. Use action-oriented language 3. Add benefit-focused copy 4. A/B test different versions"),
      ("success_metrics", "Click-through rate, conversion rate"),
      ("priority", "high")]]
  else [])

/-- Embeds `GrowthAnalyzer._generate_specific_ideas_from_text` (growth_analyzer.py
lines 936-969): classify the business type from the lower-cased text,
take the matching pool, then top up to 20 with the tactical pool. -/
def generate_specific_ideas_from_text (extracted_text : String) (visual_elements : PyDict) : List PyDict :=
  let text_lower := strLower extracted_text
  let business_type := identify_business_type text_lower
  let ideas :=
    if business_type = "meditation_app" then generate_meditation_app_ideas text_lower visual_elements
    else if business_type = "learning_platform" then generate_learning_platform_ideas text_lower visual_elements
    else if business_type = "ecommerce" then generate_ecommerce_ideas text_lower visual_elements
    else if business_type = "saas" then generate_saas_ideas text_lower visual_elements
    else generate_generic_specific_ideas text_lower visual_elements
  if ideas.length < 20 then
    ideas ++ (generate_tactical_fallback_ideas "" extracted_text visual_elements).take (20 - ideas.length)
  else ideas

/-- Python `str.strip()`. -/
def pyStrip (s : String) : String :=
  String.mk (((s.data.dropWhile Char.isWhitespace).reverse.dropWhile Char.isWhitespace).reverse)

/-- Python `s.startswith(pre)`. -/
def pyStartsWith (pre s : String) : Bool := decide (pre.data <+: s.data)

/-- Python `s.split('\n')`. -/
def splitLinesStr (s : String) : List String := (s.data.splitOn (Char.ofNat 10)).map String.mk

/-- Python `s.replace(needle, '')` on character lists (every occurrence
removed, scanning left to right; needles here are never empty). -/
def replaceAllChars (needle : List Char) : List Char → List Char
  | [] => []
  | c :: t =>
    if h : needle ≠ [] ∧ needle <+: (c :: t) then
      replaceAllChars needle ((c :: t).drop needle.length)
    else
      c :: replaceAllChars needle t
termination_by l => l.length
decreasing_by
  · simp only [List.length_drop, List.length_cons]
    have : 0 < needle.length := List.length_pos.mpr h.1
    omega
  · simp [Nat.lt_succ_self]

/-- Python `s.replace(needle, '')` on strings. -/
def replaceAllStr (needle s : String) : String := String.mk (replaceAllChars needle.data s.data)

/-- Python dict assignment `d[k] = v`: update in place when the key
exists, append otherwise. -/
def pySet (m : PyDict) (k : String) (v : Val) : PyDict :=
  if (m.find? (fun p => p.1 == k)).isSome then
    m.map (fun p => if p.1 == k then (p.1, v) else p)
  else m ++ [(k, v)]

/-- The line-folding loop of `GrowthAnalyzer._parse_ideas_manually`
(growth_analyzer.py lines 1336-1352), carrying the `current_idea` dict. -/
def parseIdeasLoop : List String → PyDict → List PyDict
  | [], current => if current.isEmpty then [] else [current]
  | line :: rest, current =>
    let line := pyStrip line
    if pyStartsWith ("Title:") line then
      (if current.isEmpty then [] else [current]) ++
        parseIdeasLoop rest [("title", Val.s (pyStrip (replaceAllStr ("Title:") line)))]
    else if pyStartsWith ("Description:") line then
      parseIdeasLoop rest (pySet current "description" (Val.s (pyStrip (replaceAllStr ("Description:") line))))
    else if pyStartsWith ("Hypothesis:") line then
      parseIdeasLoop rest (pySet current "hypothesis" (Val.s (pyStrip (replaceAllStr ("Hypothesis:") line))))
    else if pyStartsWith ("Category:") line then
      parseIdeasLoop rest (pySet current "category" (Val.s (pyStrip (replaceAllStr ("Category:") line))))
    else parseIdeasLoop rest current

/-- Embeds `GrowthAnalyzer._parse_ideas_manually` (growth_analyzer.py lines
1332-1354). -/
def parse_ideas_manually (content : String) : List PyDict :=
  parseIdeasLoop (splitLinesStr content) []

/-- Rendering of a dict value inside an f-string (`{width}` etc.);
only strings and integers are ever rendered on the modelled paths. -/
def pyStrOfVal : Val → String
  | .s v => v
  | .q v => if v.den == 1 then toString v.num else toString v.num ++ "/" ++ toString v.den
  | .b true => "True"
  | .b false => "False"
  | .l _ => "[...]"
  | .d _ => "\x7b...\x7d"
  | .none => "None"

/-- Everything appended after the fixed first line by the heuristic
fallback branch of `GrowthAnalyzer._generate_image_description`
(growth_analyzer.py lines 484-535). -/
def fallback_description_rest (visual_elements : PyDict) : String :=
  let layout := match pyGetD visual_elements "layout" (Val.d []) with | .d m => m | _ => []
  let dimensions := match pyGetD layout "dimensions" (Val.d []) with | .d m => m | _ => []
  let width := pyGetD dimensions "width" (Val.s ("unknown"))
  let height := pyGetD dimensions "height" (Val.s ("unknown"))
  let buttons := pyGetD visual_elements "buttons" (Val.l [])
  let forms := pyGetD visual_elements "forms" (Val.l [])
  let headlines := pyGetD visual_elements "headlines" (Val.l [])
  let images := pyGetD visual_elements "images" (Val.l [])
  let colors := pyGetD visual_elements "colors" (Val.d [])
  let s := "Page Structure: " ++ pyStrOfVal width ++ "x" ++ pyStrOfVal height ++ " layout"
  let s := s ++ (if pyTruthy (pyGetD layout "is_mobile" Val.none) then " (mobile-optimized)\n" else " (desktop-focused)\n")
  let s := s ++ (if pyTruthy buttons then "UI Elements: " ++ toString (pyLenV buttons) ++ " interactive buttons/CTAs detected\n" else "")
  let s := s ++ (if pyTruthy forms then "Forms: " ++ toString (pyLenV forms) ++ " form fields present\n" else "")
  let s := s ++ (if pyTruthy headlines then "Content: Headline text areas identified\n" else "")
  let s := s ++ (if pyTruthy images then "Media: Images and graphics detected\n" else "")
  let s := s ++ (if pyTruthy colors then "Design: Primary color scheme detected (" ++ pyStrOfVal (pyGetD (match colors with | .d m => m | _ => []) "primary" (Val.s ("unknown"))) ++ ")\n" else "")
  let s := s ++ "\nConversion Opportunities:\n"
  let s := s ++ (if pyTruthy buttons then "" else "- Missing prominent CTA buttons\n")
  let s := s ++ (if pyTruthy forms then "" else "- No form elements detected (may need lead capture)\n")
  let s := s ++ (if pyTruthy headlines then "" else "- Headline optimization needed\n")
  let s := s ++ (if pyTruthy images then "" else "- Visual content could enhance engagement\n")
  s ++ "- Social proof elements may be missing\n" ++ "- Trust signals could be improved\n"

/-- The full heuristic fallback description: the fixed header line
`"Enhanced landing page analysis:\n"` followed by the element summary. -/
def fallback_description (visual_elements : PyDict) : String :=
  "Enhanced landing page analysis:\n" ++ fallback_description_rest visual_elements

/-- Outcome of the idea-generation model call inside
`GrowthAnalyzer._generate_cro_ideas`: the call raised, or returned a
payload that JSON-parsed to a list of records, or returned text that
failed JSON parsing (handed to the manual parser). -/
inductive AIGen where
  | raised (e : String)
  | parsed (ideas : List PyDict)
  | unparsed (content : String)

/-- The per-run environment: everything the pipeline receives from the
image and the external collaborators (CV detections, OCR, the two model
calls).  `interrupt` models an exception raised inside the body of
`analyze_landing_page` outside all the inner handlers, reaching the
top-level `except` (growth_analyzer.py line 210). -/
structure Env where
  visual_elements : PyDict
  ocr : Except String String
  vision : Except String String
  ideaGen : AIGen
  additional : Except String (List PyDict)
  interrupt : Option String

/-- Embeds `GrowthAnalyzer._extract_text` (growth_analyzer.py lines 352-362):
the OCR text on success, the fixed placeholder on any exception. -/
def extract_text (env : Env) : String :=
  match env.ocr with
  | .ok t => t
  | .error _ => "Landing page content - text extraction unavailable"

/-- Embeds `GrowthAnalyzer._generate_image_description` (growth_analyzer.py lines
364-535): the model text verbatim on success, the heuristic fallback
description on any exception. -/
def generate_image_description (env : Env) : String :=
  match env.vision with
  | .ok d => d
  | .error _ => fallback_description env.visual_elements

/-- Embeds `GrowthAnalyzer._generate_additional_specific_ideas`
(growth_analyzer.py lines 717-746): parsed ideas put through the
specificity filter; `[]` on any exception. -/
def generate_additional_specific_ideas (env : Env) (image_description extracted_text : String) (visual_elements : PyDict) : List PyDict :=
  match env.additional with
  | .ok ideas => ideas.filter (fun i => is_idea_specific_to_image i image_description extracted_text visual_elements)
  | .error _ => []

/-- Embeds `GrowthAnalyzer._generate_cro_ideas` (growth_analyzer.py lines
537-684). -/
def generate_cro_ideas (env : Env) (image_description extracted_text : String) (visual_elements : PyDict) : List PyDict :=
  if pyInB ("enhanced landing page analysis") (strLower image_description) ||
     pyInB ("desktop layout detected") (strLower image_description) then
    if extracted_text ≠ "" ∧ 50 < extracted_text.data.length then
      generate_specific_ideas_from_text extracted_text visual_elements
    else
      generate_specific_ideas_from_analysis image_description extracted_text visual_elements
  else
    match env.ideaGen with
    | .raised _ => generate_specific_ideas_from_analysis image_description extracted_text visual_elements
    | .parsed ideas =>
      let specific := ideas.filter (fun i => is_idea_specific_to_image i image_description extracted_text visual_elements)
      let specific :=
        if specific.length < 15 then
          specific ++ generate_additional_specific_ideas env image_description extracted_text visual_elements
        else specific
      let specific :=
        if specific.length < 20 then
          specific ++ (generate_tactical_fallback_ideas image_description extracted_text visual_elements).take (20 - specific.length)
        else specific
      specific
    | .unparsed content =>
      (parse_ideas_manually content).filter (fun i => is_idea_specific_to_image i image_description extracted_text visual_elements)

/-- The record returned by `GrowthAnalyzer.analyze_landing_page`. -/
structure AnalysisResult where
  ideas : List PyDict
  summary : PyDict
  metadata : PyDict

/-- The metadata dict of a successful run (growth_analyzer.py lines
180-186); note it has no `error` key. -/
def metaOk (visual_elements : PyDict) (extracted_text image_description : String) : PyDict :=
  [("visual_elements", Val.d visual_elements),
   ("extracted_text", Val.s extracted_text),
   ("image_description", Val.s image_description),
   ("ai_analysis_working", Val.b (is_ai_analysis_working image_description))]

/-- The result built by the top-level `except` handler of
`analyze_landing_page` (growth_analyzer.py lines 210-229). -/
def fallbackResult (e : String) : AnalysisResult :=
  let scored := score_ideas_with_ice get_fallback_ideas
  { ideas := scored
    summary := generate_summary scored
    metadata := [("visual_elements", Val.d []),
                 ("extracted_text", Val.s ("Analysis failed, using fallback ideas")),
                 ("image_description", Val.s ("Fallback analysis")),
                 ("ai_analysis_working", Val.b false),
                 ("error", Val.s e)] }

/-- The `try` body of `GrowthAnalyzer.analyze_landing_page`
(growth_analyzer.py lines 134-208), including the final safety checks. -/
def analyzeBody (env : Env) : Except String AnalysisResult :=
  match env.interrupt with
  | some e => .error e
  | Option.none =>
    let ve := env.visual_elements
    let extracted_text := extract_text env
    let image_description := generate_image_description env
    let ideas0 := generate_cro_ideas env image_description extracted_text ve
    let ideas := if ideas0.isEmpty then get_fallback_ideas else ideas0
    let scored := score_ideas_with_ice ideas
    if scored.isEmpty then
      let sf := score_ideas_with_ice get_fallback_ideas
      .ok { ideas := sf, summary := generate_summary sf, metadata := metaOk ve extracted_text image_description }
    else if scored.length < 20 then
      let st := score_ideas_with_ice (generate_tactical_fallback_ideas image_description extracted_text ve)
      let ni := scored ++ st.take (20 - scored.length)
      .ok { ideas := ni, summary := generate_summary ni, metadata := metaOk ve extracted_text image_description }
    else
      .ok { ideas := scored, summary := generate_summary scored, metadata := metaOk ve extracted_text image_description }

/-- Embeds `GrowthAnalyzer.analyze_landing_page` (growth_analyzer.py lines
124-229): the body result, or the fallback result when the body raises. -/
def analyze_landing_page (env : Env) : AnalysisResult :=
  match analyzeBody env with
  | .ok r => r
  | .error e => fallbackResult e

/-- Projection used in statements: the nested `ice.score` number of a
scored idea record (the spec's ScoredIdea `score`). -/
def iceScoreOf (d : PyDict) : ℚ :=
  match pyGetD d "ice" (Val.d []) with
  | .d ice => getNumD ice "score" 0
  | _ => 0

/-- Projection used in statements: the `priority` string of a scored
idea record. -/
def priorityStrOf (d : PyDict) : String :=
  match pyGetD d "priority" Val.none with
  | .s p => p
  | _ => ""

/-- Number of keywords of `inds` occurring in `t` (substring hits). -/
def hitCount (inds : List String) (t : String) : ℕ :=
  (inds.filter (fun k => pyInB k t)).length

/-- Modelled from the spec: the business-type classifier as the spec
words it — “the archetype with the most keyword hits wins, ties broken
by enumeration order (wellness > learning > e-commerce > SaaS); no hits
→ generic” — for comparison against `identify_business_type`, whose
if/elif chain is the code. -/
def business_type_by_max_hits (t : String) : String :=
  let pairs : List (String × ℕ) :=
    [("meditation_app", hitCount meditation_indicators t),
     ("learning_platform", hitCount learning_indicators t),
     ("ecommerce", hitCount ecommerce_indicators t),
     ("saas", hitCount saas_indicators t)]
  (pairs.foldl (fun acc p => if acc.2 < p.2 then p else acc) ("generic", 0)).1

/-- A run on which every external collaborator fails: the image cannot be
decoded by OpenCV (so `_extract_visual_elements` returns `{}`), OCR
raises, and both model calls raise — the situation the repository
actually produces, since `self.client` is never assigned and `base64` is
never imported in `growth_analyzer.py`. -/
def envAllFail : Env :=
  { visual_elements := []
    ocr := Except.error "pytesseract failed"
    vision := Except.error "name base64 is not defined"
    ideaGen := AIGen.raised "GrowthAnalyzer object has no attribute client"
    additional := Except.error "GrowthAnalyzer object has no attribute client"
    interrupt := Option.none }

/-- A run whose body raises an exception that reaches the top-level
handler of `analyze_landing_page`. -/
def envBoom : Env :=
  { envAllFail with interrupt := some ("boom") }

/-- Attribute data with `reasoning_strength = 0.125` (an admissible value
in `[0,1]` with three decimal places), everything else inert. -/
def iceDataCx : IceData :=
  { category := some ("layout")
    affects_value_proposition := false
    affects_cta := false
    affects_trust := false
    affects_social_proof := false
    has_case_studies := false
    case_study_count := 0
    follows_best_practices := false
    industry_standard := false
    reasoning_strength := Rat.divInt 1 8
    complexity := some ("medium")
    dev_time_days := 4
    requires_design := false
    requires_copywriting := false
    requires_ab_testing := false
    requires_user_research := false }

/-! Theorems.  First the bridges between the executable arithmetic and
the Mathlib field operations, then helper lemmas, then one theorem per
specification claim (with witnesses and counterexamples). -/

/-- Operation `pyAdd` agrees with Mathlib addition. -/
theorem pyAdd_eq (a b : ℚ) : pyAdd a b = a + b := by
  rw [pyAdd]
  conv_rhs => rw [← Rat.num_divInt_den a, ← Rat.num_divInt_den b]
  rw [Rat.divInt_add_divInt _ _ (by exact_mod_cast a.den_nz) (by exact_mod_cast b.den_nz)]

/-- Operation `pySub` agrees with Mathlib subtraction. -/
theorem pySub_eq (a b : ℚ) : pySub a b = a - b := by
  rw [pySub]
  conv_rhs => rw [← Rat.num_divInt_den a, ← Rat.num_divInt_den b]
  rw [Rat.divInt_sub_divInt _ _ (by exact_mod_cast a.den_nz) (by exact_mod_cast b.den_nz)]

/-- Operation `pyMul` agrees with Mathlib multiplication. -/
theorem pyMul_eq (a b : ℚ) : pyMul a b = a * b := by
  rw [pyMul]
  conv_rhs => rw [← Rat.num_divInt_den a, ← Rat.num_divInt_den b]
  rw [Rat.divInt_mul_divInt']

/-- Operation `pyDiv` agrees with Mathlib division. -/
theorem pyDiv_eq (a b : ℚ) : pyDiv a b = a / b := by
  rw [pyDiv, div_eq_mul_inv]
  conv_rhs => rw [← Rat.num_divInt_den a, Rat.inv_def' b]
  rw [Rat.divInt_mul_divInt']

/-- Operation `pyMin` agrees with `min`. -/
theorem pyMin_eq (a b : ℚ) : pyMin a b = min a b := by
  rw [pyMin, min_def]

/-- Operation `pyMax` agrees with `max`. -/
theorem pyMax_eq (a b : ℚ) : pyMax a b = max a b := by
  rw [pyMax, max_def]
  rcases lt_trichotomy a b with h | h | h
  · rw [if_pos h.le, if_pos h]
  · subst h; simp
  · rw [if_neg (not_le.mpr h), if_neg (not_lt.mpr h.le)]

/-- Operation `intQ` agrees with the integer cast. -/
theorem intQ_eq (n : ℤ) : intQ n = (n : ℚ) := by
  rw [intQ, Rat.divInt_one]

/-- Both scored-idea counts of a `scoreLoop` run: same length as input. -/
theorem scoreLoop_length (i : ℕ) (l : List PyDict) : (scoreLoop i l).length = l.length := by
  induction l generalizing i with
  | nil => rfl
  | cons a t ih => simp [scoreLoop, ih]

/-- A scored entry has no top-level `ice_score` key. -/
theorem scoredEntry_no_key (i : ℕ) (idea : PyDict) :
    pyGet (scoredEntry i idea) "ice_score" = Option.none := rfl

/-- A scored entry records its 1-based position in `id`. -/
theorem scoredEntry_id (i : ℕ) (idea : PyDict) :
    pyGet (scoredEntry i idea) "id" = some (Val.s ("idea_" ++ toString (i + 1))) := rfl

/-- Every entry of a `scoreLoop` run lacks the `ice_score` key. -/
theorem scoreLoop_no_key (i : ℕ) (l : List PyDict) :
    ∀ b ∈ scoreLoop i l, pyGet b "ice_score" = Option.none := by
  induction l generalizing i with
  | nil => intro b hb; cases hb
  | cons a t ih =>
    intro b hb
    rcases List.mem_cons.mp hb with hb | hb
    · rw [hb]; exact scoredEntry_no_key i a
    · exact ih (i + 1) b hb

/-- Inserting among records that all lack the sort key puts the new
record first (every key reads as the default `0`). -/
theorem insertByScore_no_key (a : PyDict) (l : List PyDict)
    (ha : pyGet a "ice_score" = Option.none)
    (hl : ∀ b ∈ l, pyGet b "ice_score" = Option.none) :
    insertByScore a l = a :: l := by
  cases l with
  | nil => rfl
  | cons b t =>
    have hb := hl b (by simp)
    simp [insertByScore, getNumD, ha, hb]

/-- Sorting a list of records that all lack the sort key is the
identity. -/
theorem sort_no_key (l : List PyDict)
    (hl : ∀ b ∈ l, pyGet b "ice_score" = Option.none) :
    sort_ideas_by_priority l = l := by
  induction l with
  | nil => rfl
  | cons a t ih =>
    have ht : ∀ b ∈ t, pyGet b "ice_score" = Option.none := fun b hb => hl b (by simp [hb])
    simp only [sort_ideas_by_priority, ih ht]
    exact insertByScore_no_key a t (hl a (by simp)) ht

/-- Loop result: `_score_ideas_with_ice` reduces to the plain scoring loop: the final
sort is a no-op because no entry carries the `ice_score` key it sorts
on. -/
theorem score_ideas_with_ice_eq_loop (ideas : List PyDict) :
    score_ideas_with_ice ideas = scoreLoop 0 ideas :=
  sort_no_key (scoreLoop 0 ideas) (scoreLoop_no_key 0 ideas)

/-- Length: `_score_ideas_with_ice` preserves the number of ideas. -/
theorem score_ideas_with_ice_length (ideas : List PyDict) :
    (score_ideas_with_ice ideas).length = ideas.length := by
  rw [score_ideas_with_ice_eq_loop, scoreLoop_length]

/-- Entry `j` of a `scoreLoop` run is the scored entry of input idea `j`. -/
theorem scoreLoop_get (l : List PyDict) (i j : ℕ) (h : j < (scoreLoop i l).length) :
    (scoreLoop i l).get ⟨j, h⟩ =
      scoredEntry (i + j) (l.get ⟨j, by rw [← scoreLoop_length i l]; exact h⟩) := by
  induction l generalizing i j with
  | nil => cases h
  | cons a t ih =>
    cases j with
    | zero => rfl
    | succ j =>
      have h' : j < (scoreLoop (i + 1) t).length := by
        simpa [scoreLoop] using h
      have := ih (i + 1) j h'
      simpa [scoreLoop, Nat.add_assoc, Nat.add_comm 1 j] using this

/-- Entry `j` of a `scoreLoop` run, through the total `getD` accessor. -/
theorem scoreLoop_getD (l : List PyDict) (i j : ℕ) (h : j < l.length) :
    (scoreLoop i l).getD j [] = scoredEntry (i + j) (l.getD j []) := by
  induction l generalizing i j with
  | nil => cases h
  | cons a t ih =>
    cases j with
    | zero => rfl
    | succ j =>
      have h' : j < t.length := by simpa using h
      have := ih (i + 1) j h'
      simpa [scoreLoop, Nat.add_assoc, Nat.add_comm 1 j] using this

/-- C10: `_score_ideas_with_ice` returns exactly one scored entry per
input idea, in input order (the final sort keys on a top-level
`ice_score` field the entries do not carry, so every key reads the
default `0` and the stable sort is the identity), and the entry at
0-based position `j` carries `id = "idea_{j+1}"`.  The loop's `except`
branch would substitute a default-scored entry rather than drop an idea,
so the one-entry-per-idea shape holds on every path. -/
theorem c10_scoring_preserves_input_order (ideas : List PyDict) :
    score_ideas_with_ice ideas = scoreLoop 0 ideas ∧
    (score_ideas_with_ice ideas).length = ideas.length ∧
    ∀ j, j < ideas.length →
      pyGet ((score_ideas_with_ice ideas).getD j []) "id" =
        some (Val.s ("idea_" ++ toString (j + 1))) ∧
      pyGet ((score_ideas_with_ice ideas).getD j []) "ice_score" = Option.none := by
  refine ⟨score_ideas_with_ice_eq_loop ideas, score_ideas_with_ice_length ideas, ?_⟩
  intro j hj
  rw [score_ideas_with_ice_eq_loop, scoreLoop_getD ideas 0 j hj, Nat.zero_add]
  exact ⟨scoredEntry_id j _, scoredEntry_no_key j _⟩

/-- C10 witness: the first scored entry of the hard-fallback pool has id
`idea_1` and no top-level `ice_score` key. -/
theorem c10_scoring_preserves_input_order_witness :
    pyGet ((score_ideas_with_ice get_fallback_ideas).getD 0 []) "id" =
      some (Val.s ("idea_" ++ toString (0 + 1))) ∧
    pyGet ((score_ideas_with_ice get_fallback_ideas).getD 0 []) "ice_score" = Option.none :=
  (c10_scoring_preserves_input_order get_fallback_ideas).2.2 0 (by decide)

/-- C2: a concrete run of `_score_ideas_with_ice` on the 20-idea hard
fallback pool leaves the list in generation order, not sorted by score:
the first returned entry scores 8.75 while the second scores 28.0.  The
sort key `x.get('ice_score', 0)` never finds a key (scores live under
`ice.score`), contradicting the docstring of
`ICEScorer.sort_ideas_by_priority` and the sortedness claim. -/
theorem c2_fallback_run_not_sorted :
    iceScoreOf ((score_ideas_with_ice get_fallback_ideas).getD 0 []) = Rat.divInt 35 4 ∧
    iceScoreOf ((score_ideas_with_ice get_fallback_ideas).getD 1 []) = 28 ∧
    iceScoreOf ((score_ideas_with_ice get_fallback_ideas).getD 0 []) <
      iceScoreOf ((score_ideas_with_ice get_fallback_ideas).getD 1 []) :=
  ⟨by decide, by decide, by decide⟩

/-- Both clamp bounds of `min(10.0, max(1.0, x))`. -/
theorem clamp_bounds (x : ℚ) : 1 ≤ pyMin 10 (pyMax 1 x) ∧ pyMin 10 (pyMax 1 x) ≤ 10 := by
  rw [pyMin_eq, pyMax_eq]
  exact ⟨le_min (by norm_num) (le_max_left 1 x), min_le_left _ _⟩

/-- C3: for every attribute combination, the computed impact, confidence
and effort each lie in `[1, 10]` (each calculator ends in
`min(10.0, max(1.0, ...))`). -/
theorem c3_scores_in_range (d : IceData) :
    (1 ≤ calculate_impact d ∧ calculate_impact d ≤ 10) ∧
    (1 ≤ calculate_confidence d ∧ calculate_confidence d ≤ 10) ∧
    (1 ≤ calculate_effort d ∧ calculate_effort d ≤ 10) :=
  ⟨clamp_bounds _, clamp_bounds _, clamp_bounds _⟩

/-- C5 (amended): the `ICEScorer.get_priority_level` thresholds satisfy
the claimed iff-characterisation, and the priority inside the
`score_idea` result is exactly the thresholded one.  (The pipeline's
scored records instead carry the generator-assigned `priority`; see the
counterexample.) -/
theorem c5_priority_thresholds :
    (∀ s : ℚ,
      ((get_priority_level s = "high") ↔ 8 ≤ s) ∧
      ((get_priority_level s = "medium") ↔ 4 ≤ s ∧ s < 8) ∧
      ((get_priority_level s = "low") ↔ s < 4)) ∧
    ∀ d : IceData, (score_idea d).priority = get_priority_level (score_idea d).ice_score := by
  constructor
  · intro s
    unfold get_priority_level
    by_cases h8 : (8 : ℚ) ≤ s
    · rw [if_pos h8]
      exact ⟨⟨fun _ => h8, fun _ => rfl⟩,
        ⟨fun h => absurd h (by decide), fun hc => absurd hc.2 (not_lt.mpr h8)⟩,
        ⟨fun h => absurd h (by decide),
         fun hc => absurd h8 (not_le.mpr (hc.trans (by norm_num)))⟩⟩
    · by_cases h4 : (4 : ℚ) ≤ s
      · rw [if_neg h8, if_pos h4]
        exact ⟨⟨fun h => absurd h (by decide), fun hh => absurd hh h8⟩,
          ⟨fun _ => ⟨h4, not_le.mp h8⟩, fun _ => rfl⟩,
          ⟨fun h => absurd h (by decide), fun hl => absurd hl (not_lt.mpr h4)⟩⟩
      · rw [if_neg h8, if_neg h4]
        exact ⟨⟨fun h => absurd h (by decide), fun hh => absurd hh h8⟩,
          ⟨fun h => absurd h (by decide), fun hc => absurd hc.1 h4⟩,
          ⟨fun _ => not_le.mp h4, fun _ => rfl⟩⟩
  · intro d
    rfl

/-- C5 counterexample: the second scored entry of the tactical pool has
ICE score 7.5 (so the thresholds demand `medium`) but its `priority`
field is the template's `low` — the pipeline keeps the generator's
priority rather than the threshold-derived one. -/
theorem c5_counterexample :
    priorityStrOf ((score_ideas_with_ice (generate_tactical_fallback_ideas "" "" [])).getD 1 []) = "low" ∧
    iceScoreOf ((score_ideas_with_ice (generate_tactical_fallback_ideas "" "" [])).getD 1 []) = Rat.divInt 15 2 ∧
    (4 ≤ iceScoreOf ((score_ideas_with_ice (generate_tactical_fallback_ideas "" "" [])).getD 1 []) ∧
      iceScoreOf ((score_ideas_with_ice (generate_tactical_fallback_ideas "" "" [])).getD 1 []) < 8) ∧
    priorityStrOf ((score_ideas_with_ice (generate_tactical_fallback_ideas "" "" [])).getD 1 []) ≠ "medium" :=
  ⟨by decide, by decide, ⟨by decide, by decide⟩, by decide⟩

/-- C4 counterexample: with `reasoning_strength = 0.125` the reported
(1-decimal-rounded) confidence is 5.2 while the stored score was
computed from the unrounded 5.25, so recomputing
`round((impact*confidence)/effort, 2)` from the reported fields does not
reproduce the stored score. -/
theorem c4_counterexample :
    (score_idea iceDataCx).ice_score ≠
      roundPy 2 (pyDiv (pyMul (score_idea iceDataCx).impact (score_idea iceDataCx).confidence)
        (score_idea iceDataCx).effort) := by decide

/-- C6 counterexample: on a text with one wellness hit and four
learning-platform hits the code classifies `meditation_app`, while the
most-hits rule of the spec picks `learning_platform`: the classifier is
a first-match if/elif chain, not a hit-count vote. -/
theorem c6_counterexample :
    identify_business_type ("calm course lesson education skill") = "meditation_app" ∧
    business_type_by_max_hits ("calm course lesson education skill") = "learning_platform" ∧
    hitCount meditation_indicators ("calm course lesson education skill") = 1 ∧
    hitCount learning_indicators ("calm course lesson education skill") = 4 ∧
    identify_business_type ("calm course lesson education skill") ≠
      business_type_by_max_hits ("calm course lesson education skill") :=
  ⟨by decide, by decide, by decide, by decide, by decide⟩

/-- C6 (amended): the classifier returns the first archetype, in the
fixed order wellness → learning → e-commerce → SaaS, whose keyword list
has at least one substring hit, and `generic` exactly when no keyword of
any archetype occurs. -/
theorem c6_first_match_classifier (t : String) :
    (identify_business_type t = "meditation_app" ↔ anyIndicator meditation_indicators t = true) ∧
    (identify_business_type t = "learning_platform" ↔
      anyIndicator meditation_indicators t = false ∧ anyIndicator learning_indicators t = true) ∧
    (identify_business_type t = "ecommerce" ↔
      anyIndicator meditation_indicators t = false ∧ anyIndicator learning_indicators t = false ∧
      anyIndicator ecommerce_indicators t = true) ∧
    (identify_business_type t = "saas" ↔
      anyIndicator meditation_indicators t = false ∧ anyIndicator learning_indicators t = false ∧
      anyIndicator ecommerce_indicators t = false ∧ anyIndicator saas_indicators t = true) ∧
    (identify_business_type t = "generic" ↔
      anyIndicator meditation_indicators t = false ∧ anyIndicator learning_indicators t = false ∧
      anyIndicator ecommerce_indicators t = false ∧ anyIndicator saas_indicators t = false) := by
  unfold identify_business_type
  cases hm : anyIndicator meditation_indicators t <;>
    cases hl : anyIndicator learning_indicators t <;>
      cases he : anyIndicator ecommerce_indicators t <;>
        cases hs : anyIndicator saas_indicators t <;>
          simp only [Bool.false_eq_true, if_false, if_true] <;> decide

/-- C7: the specificity filter accepts an idea exactly when its
(lower-cased) title or description contains at least one term of the
fixed concrete-element vocabulary, and it is not the case that every
phrase of the fixed generic-phrase list occurs in the title or
description (rejection for genericity is a conjunction over all generic
phrases). -/
theorem c7_specificity_filter (idea : PyDict) (desc text : String) (ve : PyDict) :
    is_idea_specific_to_image idea desc text ve = true ↔
      ((∃ ind ∈ specific_indicators,
          ind.data <:+: (ideaTitleLower idea).data ∨
          ind.data <:+: (ideaDescriptionLower idea).data) ∧
       ¬(∀ phrase ∈ generic_phrases,
          phrase.data <:+: (ideaTitleLower idea).data ∨
          phrase.data <:+: (ideaDescriptionLower idea).data)) := by
  simp [is_idea_specific_to_image, pyInB, List.any_eq_true, List.all_eq_true]

/-- C8: whenever the body of `analyze_landing_page` raises, the
top-level handler returns (rather than propagates) the fallback result:
its ideas are the scored hard-fallback pool, `metadata.error` carries the
exception text, and `metadata.ai_analysis_working` is `false`.  That
`analyze_landing_page` is a total function into `AnalysisResult` is the
no-exception-escapes half of the claim. -/
theorem c8_top_level_catch (env : Env) (e : String) (h : analyzeBody env = Except.error e) :
    analyze_landing_page env = fallbackResult e ∧
    (analyze_landing_page env).ideas = score_ideas_with_ice get_fallback_ideas ∧
    pyGet (analyze_landing_page env).metadata "error" = some (Val.s e) ∧
    pyGet (analyze_landing_page env).metadata "ai_analysis_working" = some (Val.b false) := by
  have hr : analyze_landing_page env = fallbackResult e := by
    unfold analyze_landing_page
    rw [h]
  refine ⟨hr, ?_, ?_, ?_⟩ <;> rw [hr] <;> rfl

/-- C8 witness: a run whose body raises `boom` returns the fallback
result with `metadata.error = boom`. -/
theorem c8_top_level_catch_witness :
    analyzeBody envBoom = Except.error ("boom") ∧
    (analyze_landing_page envBoom = fallbackResult ("boom") ∧
     (analyze_landing_page envBoom).ideas = score_ideas_with_ice get_fallback_ideas ∧
     pyGet (analyze_landing_page envBoom).metadata "error" = some (Val.s ("boom")) ∧
     pyGet (analyze_landing_page envBoom).metadata "ai_analysis_working" = some (Val.b false)) :=
  ⟨rfl, c8_top_level_catch envBoom ("boom") rfl⟩

/-- C9: `ai_analysis_working` is `true` exactly when the description
contains none of the fixed fallback-marker phrases (case-insensitively),
and every description built by the heuristic fallback path yields
`false` (it starts with the marker `Enhanced landing page analysis:`). -/
theorem c9_ai_flag_detection :
    (∀ d : String, is_ai_analysis_working d = true ↔
      ∀ m ∈ fallbackIndicators, ¬ (m.data <:+: (strLower d).data)) ∧
    (∀ ve : PyDict, is_ai_analysis_working (fallback_description ve) = false) := by
  constructor
  · intro d
    simp [is_ai_analysis_working, pyInB, List.any_eq_true]
  · intro ve
    have h1 : (strLower (fallback_description ve)).data =
        ("Enhanced landing page analysis:\n" : String).data.map Char.toLower ++
          (fallback_description_rest ve).data.map Char.toLower := by
      simp [strLower, fallback_description, String.data_append, List.map_append]
    have h2 : ("Enhanced landing page analysis:\n" : String).data.map Char.toLower =
        ("enhanced landing page analysis" : String).data ++ (":\n" : String).data := by decide
    have hinf : ("enhanced landing page analysis" : String).data <:+:
        (strLower (fallback_description ve)).data := by
      refine ⟨[], (":\n" : String).data ++ (fallback_description_rest ve).data.map Char.toLower, ?_⟩
      rw [h1, h2]
      simp [List.append_assoc]
    have hany : fallbackIndicators.any
        (fun ind => pyInB ind (strLower (fallback_description ve))) = true :=
      List.any_eq_true.mpr
        ⟨"enhanced landing page analysis", by decide,
         by simpa [pyInB] using decide_eq_true hinf⟩
    simp [is_ai_analysis_working, hany]

/-- C1 counterexample: the fully degraded but exception-free run (no CV
detections, OCR placeholder, both model calls failing) completes with 18
ideas, not 20: the heuristic analysis path yields 8 ideas and the
tactical top-up can add at most its 10 templates. -/
theorem c1_counterexample :
    (analyze_landing_page envAllFail).ideas.length = 18 ∧
    (analyze_landing_page envAllFail).ideas.length ≠ 20 :=
  ⟨by decide, by decide⟩

/-- C1 (amended): the returned ideas list has exactly 20 entries when the
top-level handler fires, when the generation stage yields no ideas (the
hard-fallback pool replaces them), or when it yields between 10 and 20
ideas; in general the count is the generation count `n` topped up by at
most the 10 tactical templates (`min 20 (n + 10)` for `0 < n < 20`) and
is `n` itself, untruncated, for `n ≥ 20`.  In particular runs with fewer
than 10 generated ideas complete with fewer than 20 entries. -/
theorem c1_ideas_count (env : Env) :
    (analyze_landing_page env).ideas.length =
      (match env.interrupt with
       | some _ => 20
       | Option.none =>
         let g := generate_cro_ideas env (generate_image_description env) (extract_text env) env.visual_elements
         if g.isEmpty then 20
         else if g.length < 20 then min 20 (g.length + 10)
         else g.length) := by
  unfold analyze_landing_page analyzeBody
  cases hint : env.interrupt with
  | some e =>
    have h20 : (score_ideas_with_ice get_fallback_ideas).length = 20 := by decide
    simp [fallbackResult, h20]
  | none =>
    dsimp only
    set g := generate_cro_ideas env (generate_image_description env) (extract_text env) env.visual_elements with hg
    by_cases hge : g.isEmpty
    · simp only [hge, if_true]
      have hE : (score_ideas_with_ice get_fallback_ideas).isEmpty = false := by decide
      have h20 : (score_ideas_with_ice get_fallback_ideas).length = 20 := by decide
      simp only [hE, Bool.false_eq_true, if_false, h20]
      norm_num
      exact h20
    · simp only [hge, if_false, Bool.false_eq_true]
      have hgne : g.length ≠ 0 := by
        intro h0
        exact hge (by simp [List.length_eq_zero.mp h0])
      have hslen : (score_ideas_with_ice g).length = g.length := score_ideas_with_ice_length g
      have hsne : (score_ideas_with_ice g).isEmpty = false := by
        cases hsc : score_ideas_with_ice g with
        | nil =>
          exfalso
          exact hgne (by rw [← hslen, hsc]; rfl)
        | cons a t => rfl
      rw [hsne]
      by_cases hlen : g.length < 20
      · rw [if_neg (by simp), if_pos (by rw [hslen]; exact hlen)]
        have hst : (score_ideas_with_ice (generate_tactical_fallback_ideas (generate_image_description env) (extract_text env) env.visual_elements)).length = 10 := by
          rw [score_ideas_with_ice_length]
          rfl
        simp only [List.length_append, List.length_take, hst, hslen, if_pos hlen]
        omega
      · rw [if_neg (by simp), if_neg (by rw [hslen]; exact hlen)]
        simp only [hslen, if_neg hlen]

theorem roundHalfEven_intCast (k : ℤ) : roundHalfEven ((k : ℚ)) = k := by
  unfold roundHalfEven
  have hfl : pyFloorZ ((k : ℚ)) = k := by
    unfold pyFloorZ
    rw [Rat.num_intCast, Rat.den_intCast]
    exact Int.ediv_one k
  dsimp only
  rw [hfl]
  have hr : pySub ((k : ℚ)) (intQ k) = 0 := by
    rw [pySub_eq, intQ_eq, sub_self]
  rw [hr]
  rw [if_pos (by rw [Rat.divInt_eq_div]; norm_num)]

/-- Rounding `round(x, 1)` is the identity on exact multiples of one tenth. -/
theorem roundPy1_fix (x : ℚ) (h : ∃ k : ℤ, x = (k : ℚ) / 10) : roundPy 1 x = x := by
  obtain ⟨k, hk⟩ := h
  have h10 : pyMul x (intQ ((10 : ℤ) ^ 1)) = (k : ℚ) := by
    rw [pyMul_eq, intQ_eq, hk]
    push_cast
    ring
  rw [roundPy, h10, roundHalfEven_intCast, Rat.divInt_eq_div, hk]
  norm_num

/-- Multiples of one tenth are closed under `pyAdd`. -/
theorem tenth_pyAdd {x y : ℚ} (hx : ∃ k : ℤ, x = (k : ℚ) / 10) (hy : ∃ k : ℤ, y = (k : ℚ) / 10) :
    ∃ k : ℤ, pyAdd x y = (k : ℚ) / 10 := by
  obtain ⟨a, ha⟩ := hx
  obtain ⟨b, hb⟩ := hy
  exact ⟨a + b, by rw [pyAdd_eq, ha, hb]; push_cast; ring⟩

/-- Multiples of one tenth are closed under `pySub`. -/
theorem tenth_pySub {x y : ℚ} (hx : ∃ k : ℤ, x = (k : ℚ) / 10) (hy : ∃ k : ℤ, y = (k : ℚ) / 10) :
    ∃ k : ℤ, pySub x y = (k : ℚ) / 10 := by
  obtain ⟨a, ha⟩ := hx
  obtain ⟨b, hb⟩ := hy
  exact ⟨a - b, by rw [pySub_eq, ha, hb]; push_cast; ring⟩

/-- Multiples of one tenth are closed under branching. -/
theorem tenth_ite (c : Prop) [Decidable c] {x y : ℚ}
    (hx : ∃ k : ℤ, x = (k : ℚ) / 10) (hy : ∃ k : ℤ, y = (k : ℚ) / 10) :
    ∃ k : ℤ, (if c then x else y) = (k : ℚ) / 10 := by
  split
  · exact hx
  · exact hy

/-- Multiples of one tenth are closed under `pyMin`. -/
theorem tenth_pyMin {x y : ℚ} (hx : ∃ k : ℤ, x = (k : ℚ) / 10) (hy : ∃ k : ℤ, y = (k : ℚ) / 10) :
    ∃ k : ℤ, pyMin x y = (k : ℚ) / 10 := by
  unfold pyMin
  split
  · exact hx
  · exact hy

/-- Multiples of one tenth are closed under `pyMax`. -/
theorem tenth_pyMax {x y : ℚ} (hx : ∃ k : ℤ, x = (k : ℚ) / 10) (hy : ∃ k : ℤ, y = (k : ℚ) / 10) :
    ∃ k : ℤ, pyMax x y = (k : ℚ) / 10 := by
  unfold pyMax
  split
  · exact hy
  · exact hx

/-- The category-weighted impact base is a multiple of one tenth. -/
theorem tenth_impact_base (c : Option String) :
    ∃ k : ℤ, pyMul 5 (category_weights (c.getD "layout")) = (k : ℚ) / 10 := by
  unfold category_weights
  split_ifs
  · exact ⟨60, by rw [pyMul_eq, Rat.divInt_eq_div]; norm_num⟩
  · exact ⟨55, by rw [pyMul_eq, Rat.divInt_eq_div]; norm_num⟩
  · exact ⟨65, by rw [pyMul_eq, Rat.divInt_eq_div]; norm_num⟩
  · exact ⟨45, by rw [pyMul_eq, Rat.divInt_eq_div]; norm_num⟩
  · exact ⟨50, by rw [pyMul_eq]; norm_num⟩
  · exact ⟨50, by rw [pyMul_eq]; norm_num⟩

/-- Every impact score is an exact multiple of one tenth. -/
theorem tenth_calculate_impact (d : IceData) : ∃ k : ℤ, calculate_impact d = (k : ℚ) / 10 := by
  unfold calculate_impact
  dsimp only
  have h1c : ∃ k : ℤ, (1 : ℚ) = (k : ℚ) / 10 := ⟨10, by norm_num⟩
  have h2c : ∃ k : ℤ, (2 : ℚ) = (k : ℚ) / 10 := ⟨20, by norm_num⟩
  have h32 : ∃ k : ℤ, Rat.divInt 3 2 = (k : ℚ) / 10 := ⟨15, by rw [Rat.divInt_eq_div]; norm_num⟩
  have h10c : ∃ k : ℤ, (10 : ℚ) = (k : ℚ) / 10 := ⟨100, by norm_num⟩
  have hb0 := tenth_impact_base d.category
  have hb1 := tenth_ite (d.affects_value_proposition = true) (tenth_pyAdd hb0 h2c) hb0
  have hb2 := tenth_ite (d.affects_cta = true) (tenth_pyAdd hb1 h32) hb1
  have hb3 := tenth_ite (d.affects_trust = true) (tenth_pyAdd hb2 h1c) hb2
  have hb4 := tenth_ite (d.affects_social_proof = true) (tenth_pyAdd hb3 h1c) hb3
  exact tenth_pyMin h10c (tenth_pyMax h1c hb4)

/-- With `reasoning_strength` a multiple of 0.05 (as for all pipeline
data, where it is 0.7 or 0.8), the confidence score is a multiple of one
tenth. -/
theorem tenth_calculate_confidence (d : IceData) (h : ∃ k : ℤ, d.reasoning_strength = (k : ℚ) / 20) :
    ∃ k : ℤ, calculate_confidence d = (k : ℚ) / 10 := by
  unfold calculate_confidence
  dsimp only
  obtain ⟨r, hr⟩ := h
  have h1c : ∃ k : ℤ, (1 : ℚ) = (k : ℚ) / 10 := ⟨10, by norm_num⟩
  have h2c : ∃ k : ℤ, (2 : ℚ) = (k : ℚ) / 10 := ⟨20, by norm_num⟩
  have h32 : ∃ k : ℤ, Rat.divInt 3 2 = (k : ℚ) / 10 := ⟨15, by rw [Rat.divInt_eq_div]; norm_num⟩
  have h10c : ∃ k : ℤ, (10 : ℚ) = (k : ℚ) / 10 := ⟨100, by norm_num⟩
  have hb0 : ∃ k : ℤ, (5 : ℚ) = (k : ℚ) / 10 := ⟨50, by norm_num⟩
  have hb1 := tenth_ite (d.has_case_studies = true) (tenth_pyAdd hb0 h2c) hb0
  have hb2 := tenth_ite ((3 : ℚ) < d.case_study_count) (tenth_pyAdd hb1 h1c) hb1
  have hb3 := tenth_ite (d.follows_best_practices = true) (tenth_pyAdd hb2 h32) hb2
  have hb4 := tenth_ite (d.industry_standard = true) (tenth_pyAdd hb3 h1c) hb3
  have hrs : ∃ k : ℤ, pyMul d.reasoning_strength 2 = (k : ℚ) / 10 :=
    ⟨r, by rw [pyMul_eq, hr]; ring⟩
  have hb5 := tenth_pyAdd hb4 hrs
  exact tenth_pyMin h10c (tenth_pyMax h1c hb5)

/-- The complexity-adjusted effort base is a multiple of one tenth. -/
theorem tenth_effort_base (c : Option String) :
    ∃ k : ℤ, pyAdd 5 (complexity_scores (c.getD "medium")) = (k : ℚ) / 10 := by
  unfold complexity_scores
  split_ifs
  · exact ⟨30, by rw [pyAdd_eq]; norm_num⟩
  · exact ⟨50, by rw [pyAdd_eq]; norm_num⟩
  · exact ⟨70, by rw [pyAdd_eq]; norm_num⟩
  · exact ⟨50, by rw [pyAdd_eq]; norm_num⟩

/-- Every effort score is an exact multiple of one tenth. -/
theorem tenth_calculate_effort (d : IceData) : ∃ k : ℤ, calculate_effort d = (k : ℚ) / 10 := by
  unfold calculate_effort
  dsimp only
  have h1c : ∃ k : ℤ, (1 : ℚ) = (k : ℚ) / 10 := ⟨10, by norm_num⟩
  have h2c : ∃ k : ℤ, (2 : ℚ) = (k : ℚ) / 10 := ⟨20, by norm_num⟩
  have h12 : ∃ k : ℤ, Rat.divInt 1 2 = (k : ℚ) / 10 := ⟨5, by rw [Rat.divInt_eq_div]; norm_num⟩
  have h32 : ∃ k : ℤ, Rat.divInt 3 2 = (k : ℚ) / 10 := ⟨15, by rw [Rat.divInt_eq_div]; norm_num⟩
  have h10c : ∃ k : ℤ, (10 : ℚ) = (k : ℚ) / 10 := ⟨100, by norm_num⟩
  have hb0 := tenth_effort_base d.complexity
  have hb1 := tenth_ite (d.dev_time_days ≤ 1) (tenth_pySub hb0 h2c)
    (tenth_ite (d.dev_time_days ≤ 3) (tenth_pySub hb0 h1c)
      (tenth_ite ((7 : ℚ) ≤ d.dev_time_days) (tenth_pyAdd hb0 h2c) hb0))
  have hb2 := tenth_ite (d.requires_design = true) (tenth_pyAdd hb1 h1c) hb1
  have hb3 := tenth_ite (d.requires_copywriting = true) (tenth_pyAdd hb2 h12) hb2
  have hb4 := tenth_ite (d.requires_ab_testing = true) (tenth_pyAdd hb3 h1c) hb3
  have hb5 := tenth_ite (d.requires_user_research = true) (tenth_pyAdd hb4 h32) hb4
  exact tenth_pyMin h10c (tenth_pyMax h1c hb5)

/-- C4 (amended): the effort fed into the score is clamped to at least 1,
so the defensive zero-effort branch of `calculate_ice_score` is
unreachable through `score_idea`, and the stored score is exactly
`round((impact*confidence)/effort, 2)` over the unrounded clamped
values.  The exact recomputation against the reported (1-decimal-rounded)
fields holds under the extra premise that `reasoning_strength` is a
multiple of 0.05 — true of all attribute data the pipeline derives — but
not for arbitrary attribute dicts (see the counterexample). -/
theorem c4_score_formula (d : IceData) (h : ∃ k : ℤ, d.reasoning_strength = (k : ℚ) / 20) :
    1 ≤ calculate_effort d ∧
    (score_idea d).ice_score =
      roundPy 2 (pyDiv (pyMul (calculate_impact d) (calculate_confidence d)) (calculate_effort d)) ∧
    (score_idea d).ice_score =
      roundPy 2 (pyDiv (pyMul (score_idea d).impact (score_idea d).confidence) (score_idea d).effort) := by
  have he1 : 1 ≤ calculate_effort d := (clamp_bounds _).1
  have hne : ¬ (calculate_effort d = 0) := by
    intro h0
    rw [h0] at he1
    norm_num at he1
  have hform : (score_idea d).ice_score =
      roundPy 2 (pyDiv (pyMul (calculate_impact d) (calculate_confidence d)) (calculate_effort d)) := by
    show calculate_ice_score (calculate_impact d) (calculate_confidence d) (calculate_effort d) = _
    unfold calculate_ice_score
    rw [if_neg hne]
  refine ⟨he1, hform, ?_⟩
  have himp : (score_idea d).impact = calculate_impact d := roundPy1_fix _ (tenth_calculate_impact d)
  have hconf : (score_idea d).confidence = calculate_confidence d :=
    roundPy1_fix _ (tenth_calculate_confidence d h)
  have heff : (score_idea d).effort = calculate_effort d := roundPy1_fix _ (tenth_calculate_effort d)
  rw [himp, hconf, heff]
  exact hform

/-- C4 witness: the amended formula instantiated at the pipeline's
default attribute data (`reasoning_strength = 0.7`). -/
theorem c4_score_formula_witness :
    (∃ k : ℤ, defaultIceData.reasoning_strength = (k : ℚ) / 20) ∧
    (1 ≤ calculate_effort defaultIceData ∧
     (score_idea defaultIceData).ice_score =
       roundPy 2 (pyDiv (pyMul (calculate_impact defaultIceData) (calculate_confidence defaultIceData))
         (calculate_effort defaultIceData)) ∧
     (score_idea defaultIceData).ice_score =
       roundPy 2 (pyDiv (pyMul (score_idea defaultIceData).impact (score_idea defaultIceData).confidence)
         (score_idea defaultIceData).effort)) :=
  ⟨⟨14, by rw [show defaultIceData.reasoning_strength = Rat.divInt 7 10 from rfl, Rat.divInt_eq_div]; norm_num⟩,
   c4_score_formula defaultIceData
     ⟨14, by rw [show defaultIceData.reasoning_strength = Rat.divInt 7 10 from rfl, Rat.divInt_eq_div]; norm_num⟩⟩
